import Mathlib

/-!
Verification development for the real-time collaboration backbone of the
`atc` document-processing service: the WebSocket delivery queue
(`backend/app/websocket/queue.py`), conflict resolver
(`backend/app/websocket/conflict_resolver.py`), connection manager
(`backend/app/websocket/manager.py`) and progress emitter
(`backend/app/websocket/progress.py`), shallowly embedded in Lean.

Conventions of the embedding:
* Python `dict`s keyed by strings are association lists `List (String × β)`
  (insertion order preserved, first binding wins) or, where no iteration
  order is observable, functions `String → Option β`.
* Wall-clock instants are natural numbers (`datetime.utcnow()` readings);
  exact rational arithmetic stands in for Python floats.
* `asyncio` effects are made explicit: functions return the mutated state
  together with the observable outputs (emitted events, scheduled retries,
  fired callbacks).
* Python attribute errors (calls to methods a class does not define) are
  modelled by an explicit method table per class and an `Except PyExc`
  result, because two of the source files call methods that do not exist.
-/

namespace ATC

/-- Exceptions that the embedded fragments can raise.  `attributeError`
models a lookup of a method name the target class does not define,
`typeError` a call that does not match the callee's signature,
`webSocketDisconnect` the transport-level disconnect exception. -/
inductive PyExc where
  | attributeError
  | typeError
  | webSocketDisconnect
  | other
deriving DecidableEq, Repr

/-- Association-list lookup: Python `d[k]` / `d.get(k)` on a dict
represented with its insertion order. -/
def lookupA {β : Type} (k : String) : List (String × β) → Option β
  | [] => none
  | (k', v) :: rest => if k' = k then some v else lookupA k rest

/-- Association-list update: Python `d[k] = v` (replaces the existing
binding in place, appends a fresh key at the end). -/
def setA {β : Type} (k : String) (v : β) : List (String × β) → List (String × β)
  | [] => [(k, v)]
  | (k', v') :: rest => if k' = k then (k, v) :: rest else (k', v') :: setA k v rest

/-- Association-list removal: Python `del d[k]` (drops the binding of `k`). -/
def removeA {β : Type} (k : String) : List (String × β) → List (String × β)
  | [] => []
  | (k', v') :: rest => if k' = k then rest else (k', v') :: removeA k rest

/-! ## Delivery queue — `backend/app/websocket/queue.py` -/

/-- `MessagePriority` (queue.py lines 18-23): LOW=1, NORMAL=2, HIGH=3, CRITICAL=4. -/
inductive MessagePriority where
  | low
  | normal
  | high
  | critical
deriving DecidableEq, Repr

/-- Numeric value of a priority, as in the Python `int` enum. -/
def MessagePriority.val : MessagePriority → Nat
  | .low => 1
  | .normal => 2
  | .high => 3
  | .critical => 4

/-- `MessageStatus` (queue.py lines 26-31). -/
inductive MessageStatus where
  | pending
  | delivered
  | failed
  | expired
deriving DecidableEq, Repr

/-- `QueuedMessage` (queue.py lines 34-48).  The event payload is kept
abstract as a string; `hasCallback` records whether a `delivery_callback`
was registered (the callback itself is opaque — what matters for the spec
is when and with which success flag it fires). -/
structure QueuedMessage where
  id : String
  event : String
  targetType : String
  targetId : Option String
  priority : MessagePriority
  createdAt : Nat
  expiresAt : Option Nat
  retryCount : Nat := 0
  maxRetries : Nat := 3
  status : MessageStatus := .pending
  lastAttempt : Option Nat := none
  hasCallback : Bool := false
deriving DecidableEq, Repr

/-- One entry of the per-target rate limiter (queue.py lines 122-127):
100 messages per 60-second window by default. -/
structure RateLimitEntry where
  count : Nat := 0
  windowStart : Nat := 0
  windowLimit : Nat := 100
  window : Nat := 60
deriving DecidableEq, Repr

/-- The `MessageQueue` state (queue.py lines 84-135): one FIFO deque per
priority, the pending/failed message tables, the rate-limiter table and
the metric counters the claims mention. -/
structure MessageQueue where
  maxQueueSize : Nat := 10000
  defaultTtl : Nat := 3600
  batchSize : Nat := 100
  queues : MessagePriority → List QueuedMessage
  pendingMessages : List (String × QueuedMessage) := []
  failedMessages : List (String × QueuedMessage) := []
  rateLimits : List (String × RateLimitEntry) := []
  messagesQueued : Nat := 0
  messagesFailed : Nat := 0
  messagesExpired : Nat := 0

/-- A `MessageQueue` as freshly constructed by `MessageQueue.__init__`
with the default parameters. -/
def MessageQueue.empty : MessageQueue := { queues := fun _ => [] }

/-- `_get_total_queue_size` (queue.py lines 331-333): total number of
messages across the four priority deques. -/
def MessageQueue.totalQueueSize (st : MessageQueue) : Nat :=
  (st.queues .low).length + (st.queues .normal).length +
    (st.queues .high).length + (st.queues .critical).length

/-- `_check_rate_limit` (queue.py lines 314-329).  Returns the verdict and
the mutated limiter table; a missing entry is created with the defaults
(the `defaultdict` factory reads the clock for `window_start`). -/
def MessageQueue.checkRateLimit (st : MessageQueue) (now : Nat) (identifier : String) :
    Bool × MessageQueue :=
  let info :=
    match lookupA identifier st.rateLimits with
    | some i => i
    | none => { windowStart := now }
  let info := if info.window < now - info.windowStart then
    { info with count := 0, windowStart := now } else info
  if info.windowLimit ≤ info.count then
    (false, { st with rateLimits := setA identifier info st.rateLimits })
  else
    (true, { st with rateLimits := setA identifier { info with count := info.count + 1 } st.rateLimits })

/-- `_evict_low_priority_messages` (queue.py lines 335-344): walk the
priorities `[LOW, NORMAL]` in order, pop the front (oldest) message of the
first non-empty deque, drop it from the pending table, and return —
at most one message is evicted and the HIGH/CRITICAL deques are never
touched. -/
def MessageQueue.evictLowPriorityMessages (st : MessageQueue) : MessageQueue :=
  match st.queues .low with
  | evicted :: rest =>
      { st with
        queues := fun p => if p = .low then rest else st.queues p,
        pendingMessages := removeA evicted.id st.pendingMessages }
  | [] =>
      match st.queues .normal with
      | evicted :: rest =>
          { st with
            queues := fun p => if p = .normal then rest else st.queues p,
            pendingMessages := removeA evicted.id st.pendingMessages }
      | [] => st

/-- The message id built by `enqueue` (queue.py line 186): it interpolates
the clock reading and the pending-table size. -/
def MessageQueue.newMessageId (st : MessageQueue) (now : Nat) : String :=
  "msg_" ++ toString now ++ "_" ++ toString st.pendingMessages.length

/-- The `QueuedMessage` built by `enqueue` (queue.py lines 186-200): the
expiry is `now + (ttl or default_ttl)` when either is non-zero (Python
truthiness of `ttl or self.default_ttl`). -/
def MessageQueue.newQueuedMessage (st : MessageQueue) (now : Nat) (event : String)
    (targetType : String) (targetId : Option String)
    (priority : MessagePriority) (ttl : Option Nat) (hasCallback : Bool) :
    QueuedMessage :=
  let ttlVal := ttl.getD 0
  let expiresAt :=
    if ttlVal ≠ 0 ∨ st.defaultTtl ≠ 0 then
      some (now + (if ttlVal ≠ 0 then ttlVal else st.defaultTtl))
    else none
  { id := st.newMessageId now, event := event, targetType := targetType,
    targetId := targetId, priority := priority, createdAt := now,
    expiresAt := expiresAt, hasCallback := hasCallback }

/-- `enqueue` (queue.py lines 165-215).  Raises on rate-limit rejection;
otherwise evicts one low/normal message when the queues are at capacity,
builds the `QueuedMessage` and appends it to its priority deque and to
the pending table. -/
def MessageQueue.enqueue (st : MessageQueue) (now : Nat) (event : String)
    (targetType : String) (targetId : Option String)
    (priority : MessagePriority) (ttl : Option Nat) (hasCallback : Bool) :
    Except String (String × MessageQueue) :=
  let rl := st.checkRateLimit now (targetId.getD "global")
  if !rl.1 then
    .error ("Rate limit exceeded for " ++ targetId.getD "global")
  else
    let st := rl.2
    let st := if st.maxQueueSize ≤ st.totalQueueSize then st.evictLowPriorityMessages else st
    let messageId := st.newMessageId now
    let msg := st.newQueuedMessage now event targetType targetId priority ttl hasCallback
    .ok (messageId,
      { st with
        queues := fun p => if p = priority then st.queues p ++ [msg] else st.queues p,
        pendingMessages := setA messageId msg st.pendingMessages,
        messagesQueued := st.messagesQueued + 1 })

/-- Expiry test used at drain time (queue.py line 229):
`datetime.utcnow() > message.expires_at`. -/
def QueuedMessage.isExpiredAt (m : QueuedMessage) (now : Nat) : Bool :=
  match m.expiresAt with
  | some t => t < now
  | none => false

/-- `_mark_expired` (queue.py lines 346-354): set the status to `expired`,
drop the message from the pending table, bump the expired counter.
Returns the updated state and the marked message. -/
def MessageQueue.markExpired (st : MessageQueue) (m : QueuedMessage) :
    MessageQueue × QueuedMessage :=
  ({ st with
     pendingMessages := removeA m.id st.pendingMessages,
     messagesExpired := st.messagesExpired + 1 },
   { m with status := .expired })

/-- The inner `while queue and len(batch) < self.batch_size` loop of
`get_next_batch` (queue.py lines 225-233) for a single priority deque:
pop the front while the batch has room, marking and skipping expired
messages.  Returns the grown batch, the remaining deque, the messages
passed to `_mark_expired` and the mutated state. -/
def drainQueue (now bs : Nat) (st : MessageQueue) (batch : List QueuedMessage) :
    List QueuedMessage →
    List QueuedMessage × List QueuedMessage × List QueuedMessage × MessageQueue
  | [] => (batch, [], [], st)
  | m :: rest =>
    if batch.length < bs then
      if m.isExpiredAt now then
        let r := st.markExpired m
        let out := drainQueue now bs r.1 batch rest
        (out.1, out.2.1, r.2 :: out.2.2.1, out.2.2.2)
      else
        drainQueue now bs st (batch ++ [m]) rest
    else (batch, m :: rest, [], st)

/-- Result of one `get_next_batch` call: the batch, the messages that were
marked expired while draining, and the queue state afterwards. -/
structure BatchResult where
  batch : List QueuedMessage
  expired : List QueuedMessage
  queue : MessageQueue

/-- `get_next_batch` (queue.py lines 217-235) visits the priorities in
descending order; this is its first iteration, on the CRITICAL deque. -/
def MessageQueue.drainCritical (st : MessageQueue) (now : Nat) :
    List QueuedMessage × List QueuedMessage × List QueuedMessage × MessageQueue :=
  drainQueue now st.batchSize st [] (st.queues .critical)

/-- Second iteration of `get_next_batch`, on the HIGH deque. -/
def MessageQueue.drainHigh (st : MessageQueue) (now : Nat) :
    List QueuedMessage × List QueuedMessage × List QueuedMessage × MessageQueue :=
  drainQueue now st.batchSize (st.drainCritical now).2.2.2 (st.drainCritical now).1
    (st.queues .high)

/-- Third iteration of `get_next_batch`, on the NORMAL deque. -/
def MessageQueue.drainNormal (st : MessageQueue) (now : Nat) :
    List QueuedMessage × List QueuedMessage × List QueuedMessage × MessageQueue :=
  drainQueue now st.batchSize (st.drainHigh now).2.2.2 (st.drainHigh now).1
    (st.queues .normal)

/-- Fourth iteration of `get_next_batch`, on the LOW deque. -/
def MessageQueue.drainLow (st : MessageQueue) (now : Nat) :
    List QueuedMessage × List QueuedMessage × List QueuedMessage × MessageQueue :=
  drainQueue now st.batchSize (st.drainNormal now).2.2.2 (st.drainNormal now).1
    (st.queues .low)

/-- `get_next_batch` (queue.py lines 217-235): drain the priority deques
in descending priority order (CRITICAL, HIGH, NORMAL, LOW), FIFO within
each deque, skipping expired messages, until the batch holds
`batch_size` messages. -/
def MessageQueue.getNextBatch (st : MessageQueue) (now : Nat) : BatchResult :=
  { batch := (st.drainLow now).1,
    expired := (st.drainCritical now).2.2.1 ++ (st.drainHigh now).2.2.1 ++
      (st.drainNormal now).2.2.1 ++ (st.drainLow now).2.2.1,
    queue :=
      { (st.drainLow now).2.2.2 with
        queues := fun p =>
          match p with
          | .critical => (st.drainCritical now).2.1
          | .high => (st.drainHigh now).2.1
          | .normal => (st.drainNormal now).2.1
          | .low => (st.drainLow now).2.1 } }

/-- `mark_failed` (queue.py lines 269-299).  If the id is unknown the call
is a no-op.  Otherwise the retry count is incremented; while it is still
below `max_retries` a retry is scheduled (`asyncio.create_task` of
`_requeue_after_delay`) after `min(2 ** retry_count, 60)` seconds at the
demoted priority (`LOW` unless the message is `CRITICAL`, which retries at
`NORMAL`); otherwise the message becomes permanently `failed`, moves from
the pending table to the failed table, the failed counter is bumped and
the delivery callback (when registered) fires with success = `false`.
Returns the new state, the callback firings `(message id, success)` and
the scheduled retry `(message, delay, priority)` if any. -/
def MessageQueue.markFailed (st : MessageQueue) (now : Nat) (messageId : String) :
    MessageQueue × List (String × Bool) × Option (QueuedMessage × Nat × MessagePriority) :=
  match lookupA messageId st.pendingMessages with
  | none => (st, [], none)
  | some message =>
    let message := { message with retryCount := message.retryCount + 1, lastAttempt := some now }
    if message.retryCount < message.maxRetries then
      let delay := min (2 ^ message.retryCount) 60
      ({ st with pendingMessages := setA messageId message st.pendingMessages },
       [],
       some (message, delay, if message.priority ≠ .critical then .low else .normal))
    else
      let message := { message with status := .failed }
      ({ st with
         pendingMessages := removeA messageId st.pendingMessages,
         failedMessages := setA messageId message st.failedMessages,
         messagesFailed := st.messagesFailed + 1 },
       if message.hasCallback then [(messageId, false)] else [],
       none)

/-- The effect of `_requeue_after_delay` (queue.py lines 356-363) once the
sleep elapses with the queue still running: if the message is still
pending, append it to the deque of the demoted retry priority. -/
def MessageQueue.requeueAfterDelay (st : MessageQueue) (message : QueuedMessage)
    (retryPriority : MessagePriority) : MessageQueue :=
  if (lookupA message.id st.pendingMessages).isSome then
    { st with queues := fun p => if p = retryPriority then st.queues p ++ [message] else st.queues p }
  else st

/-- Trajectory of a message whose every delivery attempt fails: each step
is one failed attempt followed by `mark_failed`; when a retry is
scheduled, its `_requeue_after_delay` runs and the next attempt follows.
Returns the number of delivery attempts, the retry delays in order, the
callback firings, and the final state.  The fuel bounds the recursion and
is irrelevant once it exceeds the attempt count. -/
def MessageQueue.alwaysFailRun (now : Nat) (messageId : String) :
    Nat → MessageQueue → Nat × List Nat × List (String × Bool) × MessageQueue
  | 0, st => (0, [], [], st)
  | fuel + 1, st =>
    let r := st.markFailed now messageId
    match r.2.2 with
    | some mdp =>
        let st' := r.1.requeueAfterDelay mdp.1 mdp.2.2
        let rest := alwaysFailRun now messageId fuel st'
        (rest.1 + 1, mdp.2.1 :: rest.2.1, r.2.1 ++ rest.2.2.1, rest.2.2.2)
    | none => (1, [], r.2.1, r.1)

/-- The method names the `MessageQueue` class actually defines
(queue.py lines 79-520).  `ConnectionManager.send_personal_message` calls
`add_message` and `confirm_message`, and its queue-processor task calls
`process_queue`; none of them is in this list, so those calls raise
`AttributeError` at run time. -/
def MessageQueue.methodNames : List String :=
  ["start", "stop", "enqueue", "get_next_batch", "mark_delivered", "mark_failed",
   "get_queue_stats", "_check_rate_limit", "_get_total_queue_size",
   "_evict_low_priority_messages", "_mark_expired", "_requeue_after_delay",
   "_update_average_delivery_time", "_process_queue", "_cleanup_expired",
   "_update_metrics", "_flush_remaining_messages", "_persist_message",
   "_remove_persisted_message", "restore_from_persistence"]

/-- Python attribute lookup of a method on a `MessageQueue` instance:
succeeds exactly for the names the class defines. -/
def MessageQueue.callMethod (name : String) : Except PyExc Unit :=
  if name ∈ MessageQueue.methodNames then .ok () else .error .attributeError

/-! ## Conflict resolver — `backend/app/websocket/conflict_resolver.py` -/

/-- `ConflictType` (conflict_resolver.py lines 15-20). -/
inductive ConflictType where
  | concurrentEdit
  | deleteWhileEditing
  | versionMismatch
  | lockedZone
deriving DecidableEq, Repr

/-- The conflict dictionaries built by `detect_conflict`
(conflict_resolver.py lines 50-77), as one record with optional fields. -/
structure Conflict where
  ctype : ConflictType
  severity : String
  localVersion : Option Int := none
  remoteVersion : Option Int := none
  lockedBy : Option String := none
  conflictingFields : List String := []
deriving DecidableEq, Repr

/-- `ConflictResolver` state (conflict_resolver.py lines 34-37):
per-zone version counters and advisory locks.  The bounded conflict
history is kept as the list of zone ids recorded. -/
structure ConflictResolver where
  zoneVersions : String → Option Int := fun _ => none
  zoneLocks : String → Option String := fun _ => none
  conflictHistory : List String := []

/-- A `ConflictResolver` as freshly constructed. -/
def ConflictResolver.empty : ConflictResolver := {}

/-- The `conflicting_fields` loop of `detect_conflict`
(conflict_resolver.py lines 67-70): the keys of `local_changes`, in
iteration order, that `remote_changes` also binds to a different value. -/
def conflictingFieldsOf : List (String × String) → List (String × String) → List String
  | [], _ => []
  | (field, v) :: rest, remote =>
    match lookupA field remote with
    | some rv =>
        if v ≠ rv then field :: conflictingFieldsOf rest remote
        else conflictingFieldsOf rest remote
    | none => conflictingFieldsOf rest remote

/-- `detect_conflict` (conflict_resolver.py lines 39-79), checked in the
source order: version mismatch first; then `zone_id in self.zone_locks` —
the lock test does not receive or compare the submitting user, so any
lock at all yields `LOCKED_ZONE`, although the code's own comment reads
"Check if zone is locked by another user"; then concurrent field edits;
otherwise no conflict. -/
def ConflictResolver.detectConflict (r : ConflictResolver) (zoneId : String)
    (localVersion remoteVersion : Int)
    (localChanges remoteChanges : List (String × String)) : Option Conflict :=
  if localVersion ≠ remoteVersion then
    some { ctype := .versionMismatch, severity := "high",
           localVersion := some localVersion, remoteVersion := some remoteVersion }
  else if (r.zoneLocks zoneId).isSome then
    some { ctype := .lockedZone, severity := "medium", lockedBy := r.zoneLocks zoneId }
  else
    let cf := conflictingFieldsOf localChanges remoteChanges
    if cf ≠ [] then
      some { ctype := .concurrentEdit, severity := "high", conflictingFields := cf }
    else
      none

/-- `acquire_lock` (conflict_resolver.py lines 132-139): fail without
mutating when the zone is locked by a different user, otherwise record
the holder and succeed. -/
def ConflictResolver.acquireLock (r : ConflictResolver) (zoneId userId : String) :
    Bool × ConflictResolver :=
  if (r.zoneLocks zoneId).isSome ∧ r.zoneLocks zoneId ≠ some userId then
    (false, r)
  else
    (true, { r with zoneLocks := fun z => if z = zoneId then some userId else r.zoneLocks z })

/-- `release_lock` (conflict_resolver.py lines 141-147): drop the lock and
succeed only when the caller is the current holder. -/
def ConflictResolver.releaseLock (r : ConflictResolver) (zoneId userId : String) :
    Bool × ConflictResolver :=
  if r.zoneLocks zoneId = some userId then
    (true, { r with zoneLocks := fun z => if z = zoneId then none else r.zoneLocks z })
  else
    (false, r)

/-- `update_version` (conflict_resolver.py lines 153-155): store the given
version for the zone, unconditionally. -/
def ConflictResolver.updateVersion (r : ConflictResolver) (zoneId : String) (version : Int) :
    ConflictResolver :=
  { r with zoneVersions := fun z => if z = zoneId then some version else r.zoneVersions z }

/-- `get_version` (conflict_resolver.py lines 157-159): the stored version,
defaulting to 0. -/
def ConflictResolver.getVersion (r : ConflictResolver) (zoneId : String) : Int :=
  (r.zoneVersions zoneId).getD 0

/-- The version bump of `ZoneService.update_zone_collaborative`
(zone_service.py lines 348-349): the service computes
`new_version = self._zone_versions.get(zone_id, 0) + 1` and stores it in
its own version map. -/
def zoneServiceBumpVersion (versions : String → Option Int) (zoneId : String) :
    String → Option Int :=
  fun z => if z = zoneId then some ((versions zoneId).getD 0 + 1) else versions z

/-! ## Connection manager — `backend/app/websocket/manager.py`

Only the state the claims inspect is modelled: the set of live client
ids (`active_connections` keys), the room table (`rooms`, a `defaultdict`
whose key set is modelled by `roomKeys`; an absent key is encoded as the
empty member set), the embedded message queue and the send statistics.
The presence broadcasts inside `join_room`/`leave_room` go through
`send_personal_message`, which never mutates room membership, so they are
not part of the membership model. -/

/-- Outcome of one `websocket.send_text` call on a given transport. -/
inductive TransportOutcome where
  | ok
  | disconnected
  | failure
deriving DecidableEq, Repr

/-- Connection-manager state (manager.py lines 22-54). -/
@[ext]
structure ConnectionManager where
  activeConnections : Finset String
  roomKeys : Finset String
  rooms : String → Finset String
  messageQueue : MessageQueue
  statsMessagesSent : Nat := 0
  statsMessagesFailed : Nat := 0

/-- `join_room` (manager.py lines 207-266): a no-op for a client id that
is not a live connection; otherwise `self.rooms[room_id].add(client_id)`
creates the room entry if needed and inserts the client (the subsequent
presence broadcasts do not touch membership). -/
def ConnectionManager.joinRoom (st : ConnectionManager) (clientId roomId : String) :
    ConnectionManager :=
  if clientId ∈ st.activeConnections then
    { st with
      roomKeys := insert roomId st.roomKeys,
      rooms := fun r => if r = roomId then insert clientId (st.rooms r) else st.rooms r }
  else st

/-- `leave_room` (manager.py lines 268-311): a no-op when the room key is
absent; otherwise discard the client and delete the room entry if its
member set became empty (the notification broadcasts do not touch
membership). -/
def ConnectionManager.leaveRoom (st : ConnectionManager) (clientId roomId : String) :
    ConnectionManager :=
  if roomId ∈ st.roomKeys then
    let ms := (st.rooms roomId).erase clientId
    if ms = ∅ then
      { st with
        roomKeys := st.roomKeys.erase roomId,
        rooms := fun r => if r = roomId then ∅ else st.rooms r }
    else
      { st with rooms := fun r => if r = roomId then ms else st.rooms r }
  else st

/-- `get_room_members` (manager.py lines 346-348):
`self.rooms.get(room_id, set())`. -/
def ConnectionManager.getRoomMembers (st : ConnectionManager) (roomId : String) :
    Finset String :=
  if roomId ∈ st.roomKeys then st.rooms roomId else ∅

/-- The `active_rooms` statistic (manager.py line 356): `len(self.rooms)`. -/
def ConnectionManager.activeRoomsStat (st : ConnectionManager) : Nat :=
  st.roomKeys.card

/-- One room-membership call. -/
inductive RoomOp where
  | join (clientId roomId : String)
  | leave (clientId roomId : String)
deriving DecidableEq, Repr

/-- The client a room operation is about. -/
def RoomOp.clientId : RoomOp → String
  | .join c _ => c
  | .leave c _ => c

/-- Apply one room operation to the manager. -/
def ConnectionManager.applyRoomOp (st : ConnectionManager) : RoomOp → ConnectionManager
  | .join c r => st.joinRoom c r
  | .leave c r => st.leaveRoom c r

/-- Apply a sequence of room operations in order. -/
def ConnectionManager.applyRoomOps (st : ConnectionManager) (ops : List RoomOp) :
    ConnectionManager :=
  ops.foldl ConnectionManager.applyRoomOp st

/-- The net effect of a call sequence on one room's membership, read off
the calls alone: a join inserts the client, a leave removes it. -/
def netMembers (init : Finset String) (ops : List RoomOp) (roomId : String) :
    Finset String :=
  ops.foldl
    (fun acc op =>
      match op with
      | .join c r => if r = roomId then insert c acc else acc
      | .leave c r => if r = roomId then acc.erase c else acc)
    init

/-- Result of one `send_personal_message` call: the returned boolean, the
mutated manager, the payloads actually written to the transport and the
`disconnect(client_id, reason)` calls it triggered. -/
structure SendResult where
  ok : Bool
  mgr : ConnectionManager
  transportWrites : List String
  disconnectCalls : List (String × String)

/-- The try-block body of `send_personal_message` (manager.py lines
152-159) once the client is known to be live:
`self.message_queue.add_message(...)`, then `websocket.send_text(...)`,
then `self.message_queue.confirm_message(...)`.  `MessageQueue` defines
neither `add_message` nor `confirm_message` (queue.py), so the first step
raises `AttributeError` before anything is written to the transport. -/
def sendBody (transport : String → TransportOutcome) (clientId payload : String) :
    Except PyExc (List String) := do
  MessageQueue.callMethod "add_message"
  let writes ←
    match transport clientId with
    | .ok => Except.ok [payload]
    | .disconnected => Except.error .webSocketDisconnect
    | .failure => Except.error .other
  MessageQueue.callMethod "confirm_message"
  pure writes

/-- `send_personal_message` (manager.py lines 133-170): returns `false`
for an unknown client; otherwise runs the body above inside
`try/except` — on success bumps `messages_sent` and returns `true`, on
`WebSocketDisconnect` calls `disconnect(client_id, "websocket_disconnect")`
and returns `false`, and on any other exception (here the
`AttributeError` from the missing `add_message`) bumps `messages_failed`
and returns `false`. -/
def ConnectionManager.sendPersonalMessage (st : ConnectionManager)
    (transport : String → TransportOutcome) (clientId payload : String) : SendResult :=
  if clientId ∈ st.activeConnections then
    match sendBody transport clientId payload with
    | .ok writes =>
        { ok := true,
          mgr := { st with statsMessagesSent := st.statsMessagesSent + 1 },
          transportWrites := writes, disconnectCalls := [] }
    | .error .webSocketDisconnect =>
        { ok := false, mgr := st, transportWrites := [],
          disconnectCalls := [(clientId, "websocket_disconnect")] }
    | .error _ =>
        { ok := false,
          mgr := { st with statsMessagesFailed := st.statsMessagesFailed + 1 },
          transportWrites := [], disconnectCalls := [] }
  else
    { ok := false, mgr := st, transportWrites := [], disconnectCalls := [] }

/-! ## Progress emitter — `backend/app/websocket/progress.py` -/

/-- `ProgressStage` (progress.py lines 14-24). -/
inductive ProgressStage where
  | initializing
  | preprocessing
  | analyzing
  | zoneDetection
  | textExtraction
  | postProcessing
  | finalizing
  | completed
  | failed
deriving DecidableEq, Repr

/-- One entry of `active_jobs` (progress.py lines 44-57). -/
structure JobState where
  documentId : String
  userId : String
  totalPages : Nat
  currentPage : Nat
  stage : ProgressStage
  progressPercentage : ℚ
  startTime : Nat
  estimatedDuration : Option Nat
  zonesProcessed : Nat
  zonesDetected : Nat
  errorsCount : Nat
  lastUpdate : Nat
deriving DecidableEq, Repr

/-- The payload of a progress event as assembled by
`emit_progress_update` (progress.py lines 252-270). -/
structure ProgressEventData where
  jobId : String
  documentId : String
  stage : ProgressStage
  progressPercentage : ℚ
  currentPage : Nat
  totalPages : Nat
  userId : String
  roomId : String
deriving DecidableEq, Repr

/-- `ProcessingProgressEmitter` state (progress.py line 33). -/
structure ProcessingProgressEmitter where
  activeJobs : List (String × JobState) := []

/-- The keyword arguments `emit_progress_update` passes when constructing
`ProcessingProgressEvent` (progress.py lines 252-270). -/
def progressEventCallKwargs : List String := ["type", "data", "user_id", "room_id"]

/-- The parameters `ProcessingProgressEvent.__init__` requires
positionally (events.py lines 90-101): `document_id`, `job_id`,
`progress`. -/
def processingProgressEventRequiredArgs : List String :=
  ["document_id", "job_id", "progress"]

/-- Python call of `ProcessingProgressEvent(...)` with the given keyword
arguments: raises `TypeError` when a required positional parameter is
missing. -/
def mkProcessingProgressEvent (kwargs : List String) : Except PyExc Unit :=
  if processingProgressEventRequiredArgs.all (fun a => a ∈ kwargs) then .ok ()
  else .error .typeError

/-- The method names the `EventEmitter` class defines (events.py lines
240-336).  `emit_progress_update` calls `emit_event`, which is not
among them. -/
def EventEmitter.methodNames : List String :=
  ["emit_processing_started", "emit_processing_progress", "emit_zone_processing",
   "emit_export_progress", "emit_document_event", "emit_system_notification",
   "emit_error"]

/-- Python attribute lookup of a method on an `EventEmitter` instance. -/
def EventEmitter.callMethod (name : String) : Except PyExc Unit :=
  if name ∈ EventEmitter.methodNames then .ok () else .error .attributeError

/-- `emit_progress_update` (progress.py lines 233-272): a no-op for an
unknown job; otherwise it constructs a `ProcessingProgressEvent` with the
keyword arguments above — which raises `TypeError`, because the
constructor requires `document_id`, `job_id` and `progress` positionally —
and would then call `self.event_emitter.emit_event(...)`, a method
`EventEmitter` does not define.  The event data the code intends to send
is the returned list when no exception occurs. -/
def ProcessingProgressEmitter.emitProgressUpdate (em : ProcessingProgressEmitter)
    (jobId : String) : Except PyExc (List ProgressEventData) :=
  match lookupA jobId em.activeJobs with
  | none => .ok []
  | some job => do
    mkProcessingProgressEvent progressEventCallKwargs
    EventEmitter.callMethod "emit_event"
    pure [{ jobId := jobId, documentId := job.documentId, stage := job.stage,
            progressPercentage := job.progressPercentage,
            currentPage := job.currentPage, totalPages := job.totalPages,
            userId := job.userId, roomId := "job_" ++ jobId }]

/-- `start_job_tracking` (progress.py lines 35-64): store the initial job
state (stage `initializing`, zero counters, start timestamp), then call
`self.connection_manager.join_room(user_id, f"job_{job_id}")` — note the
first argument is the *user* id although `join_room` expects a *client*
id — then emit the initial progress event.  Returns the emitter and
manager states after the call and the emission outcome (state mutations
made before an exception persist, and the exception propagates). -/
def startJobTracking (em : ProcessingProgressEmitter) (mgr : ConnectionManager)
    (now : Nat) (jobId documentId userId : String) (totalPages : Nat)
    (estimatedDuration : Option Nat) :
    ProcessingProgressEmitter × ConnectionManager × Except PyExc (List ProgressEventData) :=
  let job : JobState :=
    { documentId := documentId, userId := userId, totalPages := totalPages,
      currentPage := 0, stage := .initializing, progressPercentage := 0,
      startTime := now, estimatedDuration := estimatedDuration,
      zonesProcessed := 0, zonesDetected := 0, errorsCount := 0, lastUpdate := now }
  let em := { em with activeJobs := setA jobId job em.activeJobs }
  let mgr := mgr.joinRoom userId ("job_" ++ jobId)
  (em, mgr, em.emitProgressUpdate jobId)

/-- The per-stage interpolation weight of `update_page_progress`
(progress.py lines 118-122); `none` for stages outside the dict. -/
def stageWeight : ProgressStage → Option ℚ
  | .zoneDetection => some (3 / 10)
  | .textExtraction => some (4 / 10)
  | .postProcessing => some (2 / 10)
  | _ => none

/-- The per-stage base percentage of `update_page_progress`
(progress.py lines 125-129); only ever read for the three stages
`stageWeight` covers. -/
def stageBaseProgress : ProgressStage → ℚ
  | .zoneDetection => 25
  | .textExtraction => 45
  | .postProcessing => 75
  | _ => 0

/-- `update_page_progress` (progress.py lines 98-134): a no-op for an
unknown job; otherwise record the page and detected zones, and — when
`total_pages > 0` and the stage has an interpolation weight — set
`progress_percentage` to
`min(base + (current_page / total_pages) * 100 * weight, 95)`.
Returns the emitter state and the emission outcome of the trailing
`emit_progress_update`. -/
def ProcessingProgressEmitter.updatePageProgress (em : ProcessingProgressEmitter)
    (jobId : String) (currentPage : Nat) (zonesOnPage : Nat) (now : Nat) :
    ProcessingProgressEmitter × Except PyExc (List ProgressEventData) :=
  match lookupA jobId em.activeJobs with
  | none => (em, .ok [])
  | some job =>
    let job := { job with
      currentPage := currentPage,
      zonesDetected := job.zonesDetected + zonesOnPage,
      lastUpdate := now }
    let job :=
      if 0 < job.totalPages then
        let pageProgress : ℚ := ((currentPage : ℚ) / (job.totalPages : ℚ)) * 100
        match stageWeight job.stage with
        | some w =>
            let newPct := min (stageBaseProgress job.stage + pageProgress * w) 95
            { job with progressPercentage := newPct }
        | none => job
      else job
    let em := { em with activeJobs := setA jobId job em.activeJobs }
    (em, em.emitProgressUpdate jobId)

/-! ## Auxiliary predicates and concrete instances used by the theorems -/

/-- The room-table well-formedness the manager maintains: a room id is a
key of the `rooms` dict exactly when the room has members (leave_room and
connection cleanup delete emptied rooms; join_room only creates non-empty
ones). -/
def RoomInv (st : ConnectionManager) : Prop :=
  ∀ r, r ∈ st.roomKeys ↔ st.rooms r ≠ ∅

/-- A resolver whose zone `"zone1"` is locked by `"alice"`. -/
def lockedResolver : ConflictResolver :=
  { zoneLocks := fun z => if z = "zone1" then some "alice" else none }

/-- A callback-carrying critical message with the default retry limits. -/
def exMsg : QueuedMessage :=
  { id := "m1", event := "payload", targetType := "user", targetId := some "u1",
    priority := .critical, createdAt := 0, expiresAt := none, hasCallback := true }

/-- A queue holding `exMsg` as its only pending message. -/
def exSt : MessageQueue := { MessageQueue.empty with pendingMessages := [("m1", exMsg)] }

/-- A manager with a single live connection `"c1"`, no rooms, and a fresh
queue. -/
def exMgr : ConnectionManager :=
  { activeConnections := {"c1"}, roomKeys := ∅, rooms := fun _ => ∅,
    messageQueue := MessageQueue.empty }

/-- A fresh progress emitter. -/
def emptyEmitter : ProcessingProgressEmitter := {}

/-- Run `enqueue` and keep the new state, ignoring the message id (the
rate limiter never fires on the small examples this is used for). -/
def enqueueOk (st : MessageQueue) (now : Nat) (event : String) (pr : MessagePriority) :
    MessageQueue :=
  match st.enqueue now event "user" (some "u1") pr none false with
  | .ok (_, st') => st'
  | .error _ => st

/-- The queue of §8 of the spec: four messages enqueued to the same
target in the order low, critical, normal, high. -/
def priorityExampleQueue : MessageQueue :=
  enqueueOk (enqueueOk (enqueueOk (enqueueOk MessageQueue.empty
    100 "low message" .low) 100 "critical message" .critical)
    100 "normal message" .normal) 100 "high message" .high

/-- An old low-priority message used in the capacity example. -/
def oldLowMsg : QueuedMessage :=
  { id := "old_low", event := "l", targetType := "user", targetId := some "u1",
    priority := .low, createdAt := 1, expiresAt := none }

/-- An old normal-priority message used in the capacity example. -/
def oldNormalMsg : QueuedMessage :=
  { id := "old_normal", event := "n", targetType := "user", targetId := some "u1",
    priority := .normal, createdAt := 2, expiresAt := none }

/-- A queue at capacity (capacity 2 for the example) holding one low and
one normal message. -/
def fullQueue : MessageQueue :=
  { MessageQueue.empty with
    maxQueueSize := 2,
    queues := fun p =>
      match p with
      | .low => [oldLowMsg]
      | .normal => [oldNormalMsg]
      | _ => [],
    pendingMessages := [("old_low", oldLowMsg), ("old_normal", oldNormalMsg)] }

/-- An already-expired low-priority message (expiry 50, drained at 100). -/
def expiredMsg : QueuedMessage :=
  { id := "x1", event := "stale", targetType := "user", targetId := some "u1",
    priority := .low, createdAt := 10, expiresAt := some 50 }

/-- A queue holding only `expiredMsg`. -/
def expiredQueue : MessageQueue :=
  { MessageQueue.empty with
    queues := fun p => match p with | .low => [expiredMsg] | _ => [],
    pendingMessages := [("x1", expiredMsg)] }

/-- The state after enqueueing a critical message into `fullQueue` (which
is at capacity): the oldest low message is evicted. -/
def evictedResult : MessageQueue := enqueueOk fullQueue 100 "urgent" .critical

/-- A queue at capacity (capacity 1) whose only message is normal
priority, so eviction falls through to the NORMAL deque. -/
def normalOnlyQueue : MessageQueue :=
  { MessageQueue.empty with
    maxQueueSize := 1,
    queues := fun p => match p with | .normal => [oldNormalMsg] | _ => [],
    pendingMessages := [("old_normal", oldNormalMsg)] }

/-- `exMsg` after two failed attempts: the next failure is final. -/
def exMsgTwoRetries : QueuedMessage := { exMsg with retryCount := 2 }

/-- A queue holding `exMsgTwoRetries` as its only pending message. -/
def exStTwoRetries : MessageQueue :=
  { MessageQueue.empty with pendingMessages := [("m1", exMsgTwoRetries)] }

/-- A join-join-leave call sequence for the net-effect witness. -/
def opsEx : List RoomOp :=
  [.join "c1" "roomA", .join "c1" "roomA", .join "c1" "roomB", .leave "c1" "roomA"]

/-- A tracked job in stage `zone_detection` with ten pages. -/
def exJob : JobState :=
  { documentId := "D1", userId := "alice", totalPages := 10, currentPage := 0,
    stage := .zoneDetection, progressPercentage := 25, startTime := 0,
    estimatedDuration := none, zonesProcessed := 0, zonesDetected := 0,
    errorsCount := 0, lastUpdate := 0 }

/-- An emitter tracking `exJob` under the id `"J1"`. -/
def exEm : ProcessingProgressEmitter := { activeJobs := [("J1", exJob)] }

/-! ## Supporting lemmas -/

theorem lookupA_setA {β : Type} (k : String) (v : β) (l : List (String × β)) :
    lookupA k (setA k v l) = some v := by
  induction l with
  | nil => simp [setA, lookupA]
  | cons p rest ih =>
    by_cases h : p.1 = k
    · simp [setA, h, lookupA]
    · simp [setA, h, lookupA, ih]

theorem markFailed_retry (st : MessageQueue) (now : Nat) (mid : String) (m : QueuedMessage)
    (hm : lookupA mid st.pendingMessages = some m)
    (hr : m.retryCount + 1 < m.maxRetries) :
    st.markFailed now mid =
      ({ st with pendingMessages := setA mid { m with retryCount := m.retryCount + 1, lastAttempt := some now } st.pendingMessages },
       [],
       some ({ m with retryCount := m.retryCount + 1, lastAttempt := some now },
             min (2 ^ (m.retryCount + 1)) 60,
             if m.priority ≠ .critical then .low else .normal)) := by
  unfold MessageQueue.markFailed
  rw [hm]
  simp [hr]

theorem markFailed_permanent (st : MessageQueue) (now : Nat) (mid : String) (m : QueuedMessage)
    (hm : lookupA mid st.pendingMessages = some m)
    (hr : ¬ m.retryCount + 1 < m.maxRetries) :
    st.markFailed now mid =
      ({ st with pendingMessages := removeA mid st.pendingMessages,
                 failedMessages := setA mid { m with retryCount := m.retryCount + 1, lastAttempt := some now, status := .failed } st.failedMessages,
                 messagesFailed := st.messagesFailed + 1 },
       (if m.hasCallback then [(mid, false)] else []),
       none) := by
  unfold MessageQueue.markFailed
  rw [hm]
  simp [hr]

-- attempts bound
theorem alwaysFailRun_attempts_le (now : Nat) (mid : String) :
    ∀ (fuel : Nat) (st : MessageQueue) (m : QueuedMessage),
      lookupA mid st.pendingMessages = some m →
      (MessageQueue.alwaysFailRun now mid fuel st).1 ≤ (m.maxRetries - m.retryCount) + 1 := by
  intro fuel
  induction fuel with
  | zero => intro st m _; simp [MessageQueue.alwaysFailRun]
  | succ fuel ih =>
    intro st m hm
    by_cases hr : m.retryCount + 1 < m.maxRetries
    · rw [show fuel + 1 = fuel + 1 from rfl]
      simp only [MessageQueue.alwaysFailRun, markFailed_retry st now mid m hm hr]
      have hlook : lookupA mid
          (MessageQueue.requeueAfterDelay
            { st with pendingMessages := setA mid { m with retryCount := m.retryCount + 1, lastAttempt := some now } st.pendingMessages }
            { m with retryCount := m.retryCount + 1, lastAttempt := some now }
            (if m.priority ≠ .critical then .low else .normal)).pendingMessages =
          some { m with retryCount := m.retryCount + 1, lastAttempt := some now } := by
        unfold MessageQueue.requeueAfterDelay
        split <;> simp [lookupA_setA]
      have := ih _ _ hlook
      simp only at this ⊢
      omega
    · simp only [MessageQueue.alwaysFailRun, markFailed_permanent st now mid m hm hr]
      omega

theorem pow_min_mono (k : Nat) : min (2 ^ k) 60 ≤ min (2 ^ (k + 1)) 60 :=
  min_le_min (Nat.pow_le_pow_right (by norm_num) (Nat.le_succ k)) le_rfl

theorem alwaysFailRun_delays (now : Nat) (mid : String) :
    ∀ (fuel : Nat) (st : MessageQueue) (m : QueuedMessage),
      lookupA mid st.pendingMessages = some m →
      List.Chain' (· ≤ ·) (MessageQueue.alwaysFailRun now mid fuel st).2.1 ∧
      (∀ d ∈ (MessageQueue.alwaysFailRun now mid fuel st).2.1,
        min (2 ^ (m.retryCount + 1)) 60 ≤ d) := by
  intro fuel
  induction fuel with
  | zero => intro st m _; simp [MessageQueue.alwaysFailRun]
  | succ fuel ih =>
    intro st m hm
    by_cases hr : m.retryCount + 1 < m.maxRetries
    · simp only [MessageQueue.alwaysFailRun, markFailed_retry st now mid m hm hr]
      have hlook : lookupA mid
          (MessageQueue.requeueAfterDelay
            { st with pendingMessages := setA mid { m with retryCount := m.retryCount + 1, lastAttempt := some now } st.pendingMessages }
            { m with retryCount := m.retryCount + 1, lastAttempt := some now }
            (if m.priority ≠ .critical then .low else .normal)).pendingMessages =
          some { m with retryCount := m.retryCount + 1, lastAttempt := some now } := by
        unfold MessageQueue.requeueAfterDelay
        split <;> simp [lookupA_setA]
      obtain ⟨ihc, ihb⟩ := ih _ _ hlook
      simp only at ihc ihb ⊢
      constructor
      · refine List.chain'_cons'.mpr ⟨?_, ihc⟩
        intro d hd
        have hb := ihb d (List.mem_of_mem_head? hd)
        calc min (2 ^ (m.retryCount + 1)) 60 ≤ min (2 ^ (m.retryCount + 1 + 1)) 60 :=
              pow_min_mono _
          _ ≤ d := hb
      · intro d hd
        rcases List.mem_cons.mp hd with h | h
        · omega
        · have hb := ihb d h
          calc min (2 ^ (m.retryCount + 1)) 60 ≤ min (2 ^ (m.retryCount + 1 + 1)) 60 :=
                pow_min_mono _
            _ ≤ d := hb
    · simp [MessageQueue.alwaysFailRun, markFailed_permanent st now mid m hm hr]

theorem alwaysFailRun_callback_once (now : Nat) (mid : String) :
    ∀ (fuel : Nat) (st : MessageQueue) (m : QueuedMessage),
      lookupA mid st.pendingMessages = some m →
      m.hasCallback = true →
      m.maxRetries - m.retryCount ≤ fuel → 1 ≤ fuel →
      (MessageQueue.alwaysFailRun now mid fuel st).2.2.1 = [(mid, false)] := by
  intro fuel
  induction fuel with
  | zero => intro st m _ _ _ h1; omega
  | succ fuel ih =>
    intro st m hm hcb hfuel _
    by_cases hr : m.retryCount + 1 < m.maxRetries
    · simp only [MessageQueue.alwaysFailRun, markFailed_retry st now mid m hm hr]
      have hlook : lookupA mid
          (MessageQueue.requeueAfterDelay
            { st with pendingMessages := setA mid { m with retryCount := m.retryCount + 1, lastAttempt := some now } st.pendingMessages }
            { m with retryCount := m.retryCount + 1, lastAttempt := some now }
            (if m.priority ≠ .critical then .low else .normal)).pendingMessages =
          some { m with retryCount := m.retryCount + 1, lastAttempt := some now } := by
        unfold MessageQueue.requeueAfterDelay
        split <;> simp [lookupA_setA]
      have := ih _ _ hlook (by simpa using hcb) (by simp; omega) (by omega)
      simpa using this
    · simp [MessageQueue.alwaysFailRun, markFailed_permanent st now mid m hm hr, hcb]

theorem drainQueue_batch_spec (now bs : Nat) :
    ∀ (q : List QueuedMessage) (st : MessageQueue) (b : List QueuedMessage),
      ∃ t, (drainQueue now bs st b q).1 = b ++ t ∧
        t <+: q.filter (fun m => !(m.isExpiredAt now)) := by
  intro q
  induction q with
  | nil => intro st b; exact ⟨[], by simp [drainQueue], by simp⟩
  | cons m rest ih =>
    intro st b
    by_cases hb : b.length < bs
    · by_cases he : m.isExpiredAt now
      · obtain ⟨t, h1, h2⟩ := ih (st.markExpired m).1 b
        refine ⟨t, ?_, ?_⟩
        · simp [drainQueue, hb, he, h1]
        · simpa [List.filter_cons, he] using h2
      · obtain ⟨t, h1, h2⟩ := ih st (b ++ [m])
        refine ⟨m :: t, ?_, ?_⟩
        · simp [drainQueue, hb, he, h1]
        · rw [List.filter_cons]
          simp only [he, Bool.not_false, if_pos]
          exact List.cons_prefix_cons.mpr ⟨rfl, h2⟩
    · exact ⟨[], by simp [drainQueue, hb], by simp⟩

theorem drainQueue_expired_spec (now bs : Nat) :
    ∀ (q : List QueuedMessage) (st : MessageQueue) (b : List QueuedMessage),
      (∀ x ∈ (drainQueue now bs st b q).2.2.1,
          x.status = .expired ∧ x.isExpiredAt now = true) ∧
      (drainQueue now bs st b q).2.2.2.messagesExpired =
        st.messagesExpired + ((drainQueue now bs st b q).2.2.1).length := by
  intro q
  induction q with
  | nil => intro st b; simp [drainQueue]
  | cons m rest ih =>
    intro st b
    by_cases hb : b.length < bs
    · by_cases he : m.isExpiredAt now
      · obtain ⟨ih1, ih2⟩ := ih (st.markExpired m).1 b
        constructor
        · intro x hx
          simp only [drainQueue, hb, he, if_pos, if_true] at hx
          simp only [List.mem_cons] at hx
          rcases hx with h | h
          · subst h
            refine ⟨rfl, ?_⟩
            simpa [QueuedMessage.isExpiredAt, MessageQueue.markExpired] using he
          · exact ih1 x h
        · simp only [drainQueue, hb, he, if_pos, if_true]
          simp only [MessageQueue.markExpired] at ih2 ⊢
          simp only [ih2, List.length_cons]
          omega
      · obtain ⟨ih1, ih2⟩ := ih st (b ++ [m])
        constructor
        · intro x hx
          simp only [drainQueue, hb, he, if_pos, if_false, Bool.false_eq_true] at hx
          exact ih1 x hx
        · simp only [drainQueue, hb, he]
          simpa using ih2
    · simp [drainQueue, hb]

theorem getNextBatch_spec (st : MessageQueue) (now : Nat) :
    (∃ tc th tn tl,
      (st.getNextBatch now).batch = tc ++ th ++ tn ++ tl ∧
      tc <+: (st.queues .critical).filter (fun m => !(m.isExpiredAt now)) ∧
      th <+: (st.queues .high).filter (fun m => !(m.isExpiredAt now)) ∧
      tn <+: (st.queues .normal).filter (fun m => !(m.isExpiredAt now)) ∧
      tl <+: (st.queues .low).filter (fun m => !(m.isExpiredAt now))) ∧
    (∀ m ∈ (st.getNextBatch now).batch, m.isExpiredAt now = false) ∧
    (∀ m ∈ (st.getNextBatch now).expired, m.status = .expired ∧ m.isExpiredAt now = true) ∧
    (st.getNextBatch now).queue.messagesExpired =
      st.messagesExpired + ((st.getNextBatch now).expired).length := by
  obtain ⟨tc, hc1, hc2⟩ := drainQueue_batch_spec now st.batchSize (st.queues .critical) st []
  obtain ⟨th, hh1, hh2⟩ := drainQueue_batch_spec now st.batchSize (st.queues .high)
    (st.drainCritical now).2.2.2 (st.drainCritical now).1
  obtain ⟨tn, hn1, hn2⟩ := drainQueue_batch_spec now st.batchSize (st.queues .normal)
    (st.drainHigh now).2.2.2 (st.drainHigh now).1
  obtain ⟨tl, hl1, hl2⟩ := drainQueue_batch_spec now st.batchSize (st.queues .low)
    (st.drainNormal now).2.2.2 (st.drainNormal now).1
  rw [show drainQueue now st.batchSize st [] (st.queues .critical) = st.drainCritical now from rfl] at hc1
  rw [show drainQueue now st.batchSize (st.drainCritical now).2.2.2 (st.drainCritical now).1 (st.queues .high) = st.drainHigh now from rfl] at hh1
  rw [show drainQueue now st.batchSize (st.drainHigh now).2.2.2 (st.drainHigh now).1 (st.queues .normal) = st.drainNormal now from rfl] at hn1
  rw [show drainQueue now st.batchSize (st.drainNormal now).2.2.2 (st.drainNormal now).1 (st.queues .low) = st.drainLow now from rfl] at hl1
  have hbatch : (st.getNextBatch now).batch = tc ++ th ++ tn ++ tl := by
    show (st.drainLow now).1 = _
    rw [hl1, hn1, hh1, hc1]
    simp [List.append_assoc]
  obtain ⟨hce, hcm⟩ := drainQueue_expired_spec now st.batchSize (st.queues .critical) st []
  obtain ⟨hhe, hhm⟩ := drainQueue_expired_spec now st.batchSize (st.queues .high)
    (st.drainCritical now).2.2.2 (st.drainCritical now).1
  obtain ⟨hne, hnm⟩ := drainQueue_expired_spec now st.batchSize (st.queues .normal)
    (st.drainHigh now).2.2.2 (st.drainHigh now).1
  obtain ⟨hle, hlm⟩ := drainQueue_expired_spec now st.batchSize (st.queues .low)
    (st.drainNormal now).2.2.2 (st.drainNormal now).1
  rw [show drainQueue now st.batchSize st [] (st.queues .critical) = st.drainCritical now from rfl] at hce hcm
  rw [show drainQueue now st.batchSize (st.drainCritical now).2.2.2 (st.drainCritical now).1 (st.queues .high) = st.drainHigh now from rfl] at hhe hhm
  rw [show drainQueue now st.batchSize (st.drainHigh now).2.2.2 (st.drainHigh now).1 (st.queues .normal) = st.drainNormal now from rfl] at hne hnm
  rw [show drainQueue now st.batchSize (st.drainNormal now).2.2.2 (st.drainNormal now).1 (st.queues .low) = st.drainLow now from rfl] at hle hlm
  refine ⟨⟨tc, th, tn, tl, hbatch, hc2, hh2, hn2, hl2⟩, ?_, ?_, ?_⟩
  · intro m hm
    rw [hbatch] at hm
    simp only [List.mem_append] at hm
    have hfilter : ∀ (q t : List QueuedMessage),
        t <+: q.filter (fun x => !(x.isExpiredAt now)) → m ∈ t → m.isExpiredAt now = false := by
      intro q t hpre hmt
      have := List.mem_filter.mp (hpre.subset hmt)
      simpa using this.2
    rcases hm with ((hm | hm) | hm) | hm
    · exact hfilter _ _ hc2 hm
    · exact hfilter _ _ hh2 hm
    · exact hfilter _ _ hn2 hm
    · exact hfilter _ _ hl2 hm
  · intro m hm
    have hm' : m ∈ (st.drainCritical now).2.2.1 ++ (st.drainHigh now).2.2.1 ++
        (st.drainNormal now).2.2.1 ++ (st.drainLow now).2.2.1 := hm
    simp only [List.mem_append] at hm'
    rcases hm' with ((h | h) | h) | h
    · exact hce m h
    · exact hhe m h
    · exact hne m h
    · exact hle m h
  · show (st.drainLow now).2.2.2.messagesExpired =
      st.messagesExpired + ((st.drainCritical now).2.2.1 ++ (st.drainHigh now).2.2.1 ++
        (st.drainNormal now).2.2.1 ++ (st.drainLow now).2.2.1).length
    simp only [List.length_append]
    omega

theorem checkRateLimit_preserves (st : MessageQueue) (now : Nat) (i : String) :
    (st.checkRateLimit now i).2.queues = st.queues ∧
    (st.checkRateLimit now i).2.maxQueueSize = st.maxQueueSize ∧
    (st.checkRateLimit now i).2.pendingMessages = st.pendingMessages := by
  unfold MessageQueue.checkRateLimit
  dsimp only
  repeat' split
  all_goals exact ⟨rfl, rfl, rfl⟩

theorem checkRateLimit_totalQueueSize (st : MessageQueue) (now : Nat) (i : String) :
    (st.checkRateLimit now i).2.totalQueueSize = st.totalQueueSize := by
  unfold MessageQueue.totalQueueSize
  rw [(checkRateLimit_preserves st now i).1]

theorem evict_low_nonempty (st : MessageQueue) (m : QueuedMessage) (rest : List QueuedMessage)
    (h : st.queues .low = m :: rest) :
    st.evictLowPriorityMessages.queues .low = rest ∧
    st.evictLowPriorityMessages.queues .normal = st.queues .normal ∧
    st.evictLowPriorityMessages.queues .high = st.queues .high ∧
    st.evictLowPriorityMessages.queues .critical = st.queues .critical ∧
    st.evictLowPriorityMessages.pendingMessages = removeA m.id st.pendingMessages := by
  unfold MessageQueue.evictLowPriorityMessages
  rw [h]
  refine ⟨rfl, rfl, rfl, rfl, rfl⟩

theorem evict_low_empty (st : MessageQueue) (m : QueuedMessage) (rest : List QueuedMessage)
    (hlow : st.queues .low = []) (h : st.queues .normal = m :: rest) :
    st.evictLowPriorityMessages.queues .normal = rest ∧
    st.evictLowPriorityMessages.queues .low = [] ∧
    st.evictLowPriorityMessages.queues .high = st.queues .high ∧
    st.evictLowPriorityMessages.queues .critical = st.queues .critical ∧
    st.evictLowPriorityMessages.pendingMessages = removeA m.id st.pendingMessages := by
  unfold MessageQueue.evictLowPriorityMessages
  rw [hlow, h]
  refine ⟨rfl, by simp [hlow], rfl, rfl, rfl⟩

theorem evict_never_touches_high_critical (st : MessageQueue) :
    st.evictLowPriorityMessages.queues .high = st.queues .high ∧
    st.evictLowPriorityMessages.queues .critical = st.queues .critical := by
  unfold MessageQueue.evictLowPriorityMessages
  rcases h1 : st.queues .low with _ | ⟨m, rest⟩
  · rcases h2 : st.queues .normal with _ | ⟨m, rest⟩
    · exact ⟨rfl, rfl⟩
    · exact ⟨rfl, rfl⟩
  · exact ⟨rfl, rfl⟩

theorem enqueue_at_capacity (st : MessageQueue) (now : Nat) (ev tt : String)
    (ti : Option String) (pr : MessagePriority) (ttl : Option Nat) (cb : Bool)
    (hrl : (st.checkRateLimit now (ti.getD "global")).1 = true)
    (hcap : st.maxQueueSize ≤ st.totalQueueSize) :
    ∃ stq,
      st.enqueue now ev tt ti pr ttl cb =
        .ok ((st.checkRateLimit now (ti.getD "global")).2.evictLowPriorityMessages.newMessageId now, stq) ∧
      (∀ p, stq.queues p =
        (st.checkRateLimit now (ti.getD "global")).2.evictLowPriorityMessages.queues p ++
          (if p = pr then
            [(st.checkRateLimit now (ti.getD "global")).2.evictLowPriorityMessages.newQueuedMessage
              now ev tt ti pr ttl cb]
           else [])) ∧
      ((st.checkRateLimit now (ti.getD "global")).2.evictLowPriorityMessages.newQueuedMessage
          now ev tt ti pr ttl cb).priority = pr := by
  have hcap' : (st.checkRateLimit now (ti.getD "global")).2.maxQueueSize ≤
      (st.checkRateLimit now (ti.getD "global")).2.totalQueueSize := by
    rw [(checkRateLimit_preserves st now (ti.getD "global")).2.1,
        checkRateLimit_totalQueueSize]
    exact hcap
  unfold MessageQueue.enqueue
  simp only [hrl, Bool.not_true, Bool.false_eq_true, if_false, hcap', if_pos]
  refine ⟨_, rfl, ?_, rfl⟩
  intro p
  by_cases hp : p = pr <;> simp [hp]

theorem joinRoom_active (st : ConnectionManager) (c r : String) :
    (st.joinRoom c r).activeConnections = st.activeConnections := by
  unfold ConnectionManager.joinRoom
  split <;> rfl

theorem leaveRoom_active (st : ConnectionManager) (c r : String) :
    (st.leaveRoom c r).activeConnections = st.activeConnections := by
  unfold ConnectionManager.leaveRoom
  dsimp only
  split
  · split <;> rfl
  · rfl

theorem applyRoomOp_active (st : ConnectionManager) (op : RoomOp) :
    (st.applyRoomOp op).activeConnections = st.activeConnections := by
  cases op with
  | join c r => exact joinRoom_active st c r
  | leave c r => exact leaveRoom_active st c r

theorem joinRoom_rooms (st : ConnectionManager) (c rid : String)
    (hc : c ∈ st.activeConnections) (r : String) :
    (st.joinRoom c rid).rooms r =
      if rid = r then insert c (st.rooms r) else st.rooms r := by
  unfold ConnectionManager.joinRoom
  rw [if_pos hc]
  dsimp only
  by_cases h : r = rid
  · subst h; simp
  · rw [if_neg h, if_neg (fun hh => h hh.symm)]

theorem leaveRoom_rooms (st : ConnectionManager) (hInv : RoomInv st) (c rid : String)
    (r : String) :
    (st.leaveRoom c rid).rooms r =
      if rid = r then (st.rooms r).erase c else st.rooms r := by
  unfold ConnectionManager.leaveRoom
  by_cases hk : rid ∈ st.roomKeys
  · rw [if_pos hk]
    dsimp only
    by_cases hempty : (st.rooms rid).erase c = ∅
    · rw [if_pos hempty]
      dsimp only
      by_cases h : r = rid
      · subst h
        simp [hempty]
      · rw [if_neg h, if_neg (fun hh => h hh.symm)]
    · rw [if_neg hempty]
      dsimp only
      by_cases h : r = rid
      · subst h
        simp
      · rw [if_neg h, if_neg (fun hh => h hh.symm)]
  · rw [if_neg hk]
    by_cases h : r = rid
    · subst h
      have hempty : st.rooms r = ∅ := by
        by_contra hne
        exact hk ((hInv r).mpr hne)
      rw [if_pos rfl, hempty]
      simp
    · rw [if_neg (fun hh : rid = r => h hh.symm)]

theorem joinRoom_inv (st : ConnectionManager) (hInv : RoomInv st) (c rid : String) :
    RoomInv (st.joinRoom c rid) := by
  intro r
  unfold ConnectionManager.joinRoom
  by_cases hc : c ∈ st.activeConnections
  · rw [if_pos hc]
    dsimp only
    by_cases h : r = rid
    · subst h
      simp [Finset.insert_ne_empty]
    · simp only [Finset.mem_insert, h, false_or, if_neg h]
      exact hInv r
  · rw [if_neg hc]
    exact hInv r

theorem leaveRoom_inv (st : ConnectionManager) (hInv : RoomInv st) (c rid : String) :
    RoomInv (st.leaveRoom c rid) := by
  intro r
  unfold ConnectionManager.leaveRoom
  by_cases hk : rid ∈ st.roomKeys
  · rw [if_pos hk]
    dsimp only
    by_cases hempty : (st.rooms rid).erase c = ∅
    · rw [if_pos hempty]
      dsimp only
      by_cases h : r = rid
      · subst h
        simp
      · simp only [Finset.mem_erase, h, if_neg h, ne_eq, not_false_eq_true, true_and]
        exact hInv r
    · rw [if_neg hempty]
      dsimp only
      by_cases h : r = rid
      · subst h
        simp only [if_pos rfl]
        exact ⟨fun _ => hempty, fun _ => hk⟩
      · simp only [if_neg h]
        exact hInv r
  · rw [if_neg hk]
    exact hInv r

theorem applyRoomOps_spec :
    ∀ (ops : List RoomOp) (st : ConnectionManager), RoomInv st →
      (∀ op ∈ ops, op.clientId ∈ st.activeConnections) →
      (∀ r, (st.applyRoomOps ops).rooms r = netMembers (st.rooms r) ops r) ∧
      RoomInv (st.applyRoomOps ops) := by
  intro ops
  induction ops with
  | nil =>
    intro st hInv _
    exact ⟨fun r => rfl, hInv⟩
  | cons op ops ih =>
    intro st hInv hLive
    have hc : op.clientId ∈ st.activeConnections := hLive op (List.mem_cons_self op ops)
    have hInv' : RoomInv (st.applyRoomOp op) := by
      cases op with
      | join c r => exact joinRoom_inv st hInv c r
      | leave c r => exact leaveRoom_inv st hInv c r
    have hLive' : ∀ o ∈ ops, o.clientId ∈ (st.applyRoomOp op).activeConnections := by
      intro o ho
      rw [applyRoomOp_active]
      exact hLive o (List.mem_cons_of_mem op ho)
    obtain ⟨ihR, ihI⟩ := ih (st.applyRoomOp op) hInv' hLive'
    have hfold : st.applyRoomOps (op :: ops) = (st.applyRoomOp op).applyRoomOps ops := by
      simp [ConnectionManager.applyRoomOps]
    constructor
    · intro r
      rw [hfold, ihR r]
      have hstep : (st.applyRoomOp op).rooms r =
          (match op with
            | .join c rid => if rid = r then insert c (st.rooms r) else st.rooms r
            | .leave c rid => if rid = r then (st.rooms r).erase c else st.rooms r) := by
        cases op with
        | join c rid => exact joinRoom_rooms st c rid hc r
        | leave c rid => exact leaveRoom_rooms st hInv c rid r
      rw [hstep]
      cases op with
      | join c rid => simp [netMembers]
      | leave c rid => simp [netMembers]
    · rw [hfold]
      exact ihI

theorem joinRoom_roomKeys (st : ConnectionManager) (c rid : String) :
    (st.joinRoom c rid).roomKeys =
      if c ∈ st.activeConnections then insert rid st.roomKeys else st.roomKeys := by
  unfold ConnectionManager.joinRoom
  by_cases hc : c ∈ st.activeConnections
  · rw [if_pos hc, if_pos hc]
  · rw [if_neg hc, if_neg hc]

theorem joinRoom_rest (st : ConnectionManager) (c rid : String) :
    (st.joinRoom c rid).messageQueue = st.messageQueue ∧
    (st.joinRoom c rid).statsMessagesSent = st.statsMessagesSent ∧
    (st.joinRoom c rid).statsMessagesFailed = st.statsMessagesFailed := by
  unfold ConnectionManager.joinRoom
  split <;> exact ⟨rfl, rfl, rfl⟩

theorem leaveRoom_roomKeys (st : ConnectionManager) (c rid : String) :
    (st.leaveRoom c rid).roomKeys =
      if rid ∈ st.roomKeys ∧ (st.rooms rid).erase c = ∅ then st.roomKeys.erase rid
      else st.roomKeys := by
  unfold ConnectionManager.leaveRoom
  by_cases hk : rid ∈ st.roomKeys
  · rw [if_pos hk]
    dsimp only
    by_cases hempty : (st.rooms rid).erase c = ∅
    · rw [if_pos hempty, if_pos ⟨hk, hempty⟩]
    · rw [if_neg hempty, if_neg (fun hh => hempty hh.2)]
  · rw [if_neg hk, if_neg (fun hh => hk hh.1)]

theorem leaveRoom_rest (st : ConnectionManager) (c rid : String) :
    (st.leaveRoom c rid).messageQueue = st.messageQueue ∧
    (st.leaveRoom c rid).statsMessagesSent = st.statsMessagesSent ∧
    (st.leaveRoom c rid).statsMessagesFailed = st.statsMessagesFailed := by
  unfold ConnectionManager.leaveRoom
  dsimp only
  split
  · split <;> exact ⟨rfl, rfl, rfl⟩
  · exact ⟨rfl, rfl, rfl⟩

theorem joinRoom_rooms_general (st : ConnectionManager) (c rid r : String) :
    (st.joinRoom c rid).rooms r =
      if c ∈ st.activeConnections ∧ rid = r then insert c (st.rooms r) else st.rooms r := by
  by_cases hc : c ∈ st.activeConnections
  · rw [joinRoom_rooms st c rid hc r]
    by_cases h : rid = r
    · rw [if_pos h, if_pos ⟨hc, h⟩]
    · rw [if_neg h, if_neg (fun hh => h hh.2)]
  · unfold ConnectionManager.joinRoom
    rw [if_neg hc, if_neg (fun hh => hc hh.1)]

theorem joinRoom_idem (st : ConnectionManager) (c r : String) :
    (st.joinRoom c r).joinRoom c r = st.joinRoom c r := by
  have hact := joinRoom_active st c r
  refine ConnectionManager.ext ?_ ?_ ?_ ?_ ?_ ?_
  · rw [joinRoom_active]
  · rw [joinRoom_roomKeys, hact, joinRoom_roomKeys]
    by_cases hc : c ∈ st.activeConnections
    · rw [if_pos hc, if_pos hc, Finset.insert_idem]
    · rw [if_neg hc, if_neg hc]
  · funext r'
    rw [joinRoom_rooms_general, hact, joinRoom_rooms_general st c r r']
    by_cases hcr : c ∈ st.activeConnections ∧ r = r'
    · rw [if_pos hcr, if_pos hcr, Finset.insert_idem]
    · rw [if_neg hcr, if_neg hcr]
  · rw [(joinRoom_rest _ c r).1, (joinRoom_rest st c r).1]
  · rw [(joinRoom_rest _ c r).2.1, (joinRoom_rest st c r).2.1]
  · rw [(joinRoom_rest _ c r).2.2, (joinRoom_rest st c r).2.2]

theorem leaveRoom_rooms_general (st : ConnectionManager) (c rid r : String) :
    (st.leaveRoom c rid).rooms r =
      if rid ∈ st.roomKeys ∧ rid = r then (st.rooms r).erase c else st.rooms r := by
  by_cases hk : rid ∈ st.roomKeys
  · unfold ConnectionManager.leaveRoom
    rw [if_pos hk]
    dsimp only
    by_cases hempty : (st.rooms rid).erase c = ∅
    · rw [if_pos hempty]
      dsimp only
      by_cases h : r = rid
      · subst h
        rw [if_pos rfl, if_pos ⟨hk, rfl⟩, hempty]
      · rw [if_neg h, if_neg (fun hh => h hh.2.symm)]
    · rw [if_neg hempty]
      dsimp only
      by_cases h : r = rid
      · subst h
        rw [if_pos rfl, if_pos ⟨hk, rfl⟩]
      · rw [if_neg h, if_neg (fun hh => h hh.2.symm)]
  · unfold ConnectionManager.leaveRoom
    rw [if_neg hk, if_neg (fun hh => hk hh.1)]

theorem leaveRoom_idem (st : ConnectionManager) (c r : String) :
    (st.leaveRoom c r).leaveRoom c r = st.leaveRoom c r := by
  have hkeys := leaveRoom_roomKeys st c r
  have hrooms := fun r' => leaveRoom_rooms_general st c r r'
  refine ConnectionManager.ext ?_ ?_ ?_ ?_ ?_ ?_
  · rw [leaveRoom_active]
  · rw [leaveRoom_roomKeys (st.leaveRoom c r) c r]
    simp only [hkeys, hrooms]
    by_cases hk : r ∈ st.roomKeys
    · by_cases he : (st.rooms r).erase c = ∅
      · simp [hk, he, Finset.not_mem_erase]
      · simp [hk, he, Finset.erase_idem]
    · simp [hk]
  · funext r'
    rw [leaveRoom_rooms_general (st.leaveRoom c r) c r r']
    simp only [hkeys, hrooms]
    by_cases hk : r ∈ st.roomKeys
    · by_cases he : (st.rooms r).erase c = ∅
      · simp [hk, he, Finset.not_mem_erase]
      · by_cases hr : r = r'
        · subst hr
          simp [hk, he, Finset.erase_idem]
        · simp [hk, he, hr]
    · simp [hk]
  · rw [(leaveRoom_rest _ c r).1, (leaveRoom_rest st c r).1]
  · rw [(leaveRoom_rest _ c r).2.1, (leaveRoom_rest st c r).2.1]
  · rw [(leaveRoom_rest _ c r).2.2, (leaveRoom_rest st c r).2.2]

/-! ## Claim theorems -/

/-- C1: for a registered client (`"c1"` is live) with a healthy transport,
`send_personal_message` returns `false`, writes nothing to the transport,
enqueues nothing (the pending table stays empty — `MessageQueue` defines
neither `add_message` nor `confirm_message`, so the call raises
`AttributeError` and the generic handler bumps `messages_failed`), and
triggers no `disconnect` call; even on a disconnected transport no
`disconnect(client_id, "send_failed")` is issued. -/
theorem c1_send_returns_false_and_bypasses_queue :
    "c1" ∈ exMgr.activeConnections ∧
    (exMgr.sendPersonalMessage (fun _ => .ok) "c1" "payload").ok = false ∧
    (exMgr.sendPersonalMessage (fun _ => .ok) "c1" "payload").transportWrites = [] ∧
    (exMgr.sendPersonalMessage (fun _ => .ok) "c1" "payload").disconnectCalls = [] ∧
    (exMgr.sendPersonalMessage (fun _ => .ok) "c1" "payload").mgr.messageQueue.pendingMessages = [] ∧
    (exMgr.sendPersonalMessage (fun _ => .ok) "c1" "payload").mgr.statsMessagesFailed = 1 ∧
    MessageQueue.callMethod "add_message" = .error .attributeError ∧
    MessageQueue.callMethod "confirm_message" = .error .attributeError ∧
    ("enqueue" ∈ MessageQueue.methodNames) ∧
    (exMgr.sendPersonalMessage (fun _ => .disconnected) "c1" "payload").disconnectCalls = [] := by
  refine ⟨by decide, rfl, rfl, rfl, rfl, rfl, rfl, rfl, by decide, rfl⟩

/-- C2 counterexample: two `update_version` calls on a fresh resolver set
the version of `"z1"` to 5 and then to 3 — the second accepted call
lowers the version, refuting "never decreases" and "no call may set a
version less than or equal to the current value". -/
theorem c2_version_decrease_counterexample :
    (ConflictResolver.empty.updateVersion "z1" 5).getVersion "z1" = 5 ∧
    ((ConflictResolver.empty.updateVersion "z1" 5).updateVersion "z1" 3).getVersion "z1" = 3 ∧
    (3 : Int) < 5 := by
  refine ⟨rfl, rfl, by norm_num⟩

/-- C2 amended: the resolver's version counter starts at 0 and
`update_version` stores exactly the supplied value (no monotonicity
guard); the increase-by-exactly-1 per accepted change is enforced by the
caller: `update_zone_collaborative` writes `current + 1` to the service's
version map and leaves other resources untouched. -/
theorem c2_version_counter_amended :
    (∀ z, ConflictResolver.empty.getVersion z = 0) ∧
    (∀ (r : ConflictResolver) (z : String) (v : Int), (r.updateVersion z v).getVersion z = v) ∧
    (∀ (versions : String → Option Int) (z : String),
        (zoneServiceBumpVersion versions z z).getD 0 = (versions z).getD 0 + 1) ∧
    (∀ (versions : String → Option Int) (z z' : String), z' ≠ z →
        zoneServiceBumpVersion versions z z' = versions z') := by
  refine ⟨fun z => rfl, ?_, ?_, ?_⟩
  · intro r z v
    simp [ConflictResolver.updateVersion, ConflictResolver.getVersion]
  · intro versions z
    simp [zoneServiceBumpVersion]
  · intro versions z z' h
    simp [zoneServiceBumpVersion, h]

/-- Witness for the amended C2 theorem at concrete inputs. -/
theorem c2_version_counter_amended_witness :
    ConflictResolver.empty.getVersion "z1" = 0 ∧
    ((ConflictResolver.empty.updateVersion "z1" 7).getVersion "z1" = 7) ∧
    (zoneServiceBumpVersion (fun _ => (none : Option Int)) "z1" "z1").getD 0 = 1 ∧
    ("z2" ≠ "z1" ∧ zoneServiceBumpVersion (fun _ => (none : Option Int)) "z1" "z2" = none) :=
  ⟨c2_version_counter_amended.1 "z1",
   c2_version_counter_amended.2.1 ConflictResolver.empty "z1" 7,
   by simpa using c2_version_counter_amended.2.2.1 (fun _ => (none : Option Int)) "z1",
   by decide, c2_version_counter_amended.2.2.2 (fun _ => (none : Option Int)) "z1" "z2" (by decide)⟩

/-- C3: with `"zone1"` locked by `"alice"`, a conflict check for an edit
submitted by alice herself (equal versions, empty change sets) returns a
`LOCKED_ZONE` conflict — `detect_conflict` has no submitter parameter and
fires on any lock, while the claim (and the code's own comment) says only
a lock held by a *different* user conflicts; with no lock the same input
yields no conflict. -/
theorem c3_locked_zone_ignores_submitter :
    lockedResolver.zoneLocks "zone1" = some "alice" ∧
    lockedResolver.detectConflict "zone1" 1 1 [] [] =
      some { ctype := .lockedZone, severity := "medium", lockedBy := some "alice" } ∧
    ConflictResolver.empty.detectConflict "zone1" 1 1 [] [] = none := by
  refine ⟨rfl, rfl, rfl⟩

/-- C7: `start_job_tracking` for user `"alice"` (whose live connection id
is `"c1"`) stores the initial job state (stage `initializing`, zero
counters, zero percentage, the start timestamp) but passes the *user* id
to `join_room`, which expects a *client* id — so the manager is unchanged
and the job room `job_J1` has no members — and the initial progress event
is never emitted: building `ProcessingProgressEvent` with keyword
arguments `type/data/user_id/room_id` raises `TypeError` (the constructor
requires `document_id`, `job_id`, `progress`), and `EventEmitter` has no
`emit_event` method either. -/
theorem c7_start_tracking_room_and_emit_bug :
    ("c1" ∈ exMgr.activeConnections ∧ "alice" ∉ exMgr.activeConnections) ∧
    (startJobTracking emptyEmitter exMgr 100 "J1" "D1" "alice" 10 none).2.1 = exMgr ∧
    (startJobTracking emptyEmitter exMgr 100 "J1" "D1" "alice" 10 none).2.1.rooms "job_J1" = ∅ ∧
    ("job_J1" ∉ (startJobTracking emptyEmitter exMgr 100 "J1" "D1" "alice" 10 none).2.1.roomKeys) ∧
    (startJobTracking emptyEmitter exMgr 100 "J1" "D1" "alice" 10 none).2.2 = .error .typeError ∧
    mkProcessingProgressEvent progressEventCallKwargs = .error .typeError ∧
    EventEmitter.callMethod "emit_event" = .error .attributeError ∧
    (∃ job, lookupA "J1" (startJobTracking emptyEmitter exMgr 100 "J1" "D1" "alice" 10 none).1.activeJobs = some job ∧
       job.stage = .initializing ∧ job.currentPage = 0 ∧ job.zonesProcessed = 0 ∧
       job.zonesDetected = 0 ∧ job.progressPercentage = 0 ∧ job.startTime = 100 ∧
       job.userId = "alice" ∧ job.documentId = "D1" ∧ job.totalPages = 10) := by
  refine ⟨⟨by decide, by decide⟩, rfl, rfl, by decide, rfl, rfl, rfl,
    ⟨_, rfl, rfl, rfl, rfl, rfl, rfl, rfl, rfl, rfl, rfl⟩⟩

/-- C9: lock algebra of the conflict resolver — re-acquiring a held lock
succeeds with no state change; acquiring a lock held by a different user
fails with no state change; acquiring an unlocked resource succeeds and
records the holder; release succeeds exactly for the current holder and
is a no-op otherwise. -/
theorem c9_lock_acquire_release_semantics :
    (∀ (r : ConflictResolver) (z u : String), r.zoneLocks z = some u →
        r.acquireLock z u = (true, r)) ∧
    (∀ (r : ConflictResolver) (z u u' : String), r.zoneLocks z = some u' → u' ≠ u →
        r.acquireLock z u = (false, r)) ∧
    (∀ (r : ConflictResolver) (z u : String), r.zoneLocks z = none →
        (r.acquireLock z u).1 = true ∧ (r.acquireLock z u).2.zoneLocks z = some u) ∧
    (∀ (r : ConflictResolver) (z u : String), r.zoneLocks z = some u →
        (r.releaseLock z u).1 = true ∧ (r.releaseLock z u).2.zoneLocks z = none) ∧
    (∀ (r : ConflictResolver) (z u : String), r.zoneLocks z ≠ some u →
        r.releaseLock z u = (false, r)) := by
  refine ⟨?_, ?_, ?_, ?_, ?_⟩
  · intro r z u h
    unfold ConflictResolver.acquireLock
    rw [if_neg]
    · refine Prod.ext rfl ?_
      show ({ r with zoneLocks := fun z' => if z' = z then some u else r.zoneLocks z' } : ConflictResolver) = r
      have hfun : (fun z' => if z' = z then some u else r.zoneLocks z') = r.zoneLocks := by
        funext z'
        by_cases hz : z' = z
        · simp [hz, h]
        · simp [hz]
      simp [hfun]
    · simp [h]
  · intro r z u u' h hne
    unfold ConflictResolver.acquireLock
    rw [if_pos]
    simp [h]
    exact hne
  · intro r z u h
    unfold ConflictResolver.acquireLock
    rw [if_neg]
    · exact ⟨rfl, by simp⟩
    · simp [h]
  · intro r z u h
    unfold ConflictResolver.releaseLock
    rw [if_pos h]
    exact ⟨rfl, by simp⟩
  · intro r z u h
    unfold ConflictResolver.releaseLock
    rw [if_neg h]

/-- Witness for the lock semantics at concrete inputs: `"zone1"` locked
by `"alice"`, challenged by `"bob"`, and the unlocked zone `"z9"`. -/
theorem c9_lock_semantics_witness :
    (lockedResolver.zoneLocks "zone1" = some "alice" ∧
      lockedResolver.acquireLock "zone1" "alice" = (true, lockedResolver)) ∧
    (lockedResolver.zoneLocks "zone1" = some "alice" ∧ "alice" ≠ "bob" ∧
      lockedResolver.acquireLock "zone1" "bob" = (false, lockedResolver)) ∧
    (lockedResolver.zoneLocks "z9" = none ∧
      (lockedResolver.acquireLock "z9" "bob").1 = true ∧
      (lockedResolver.acquireLock "z9" "bob").2.zoneLocks "z9" = some "bob") ∧
    (lockedResolver.zoneLocks "zone1" = some "alice" ∧
      (lockedResolver.releaseLock "zone1" "alice").1 = true ∧
      (lockedResolver.releaseLock "zone1" "alice").2.zoneLocks "zone1" = none) ∧
    (lockedResolver.zoneLocks "zone1" ≠ some "bob" ∧
      lockedResolver.releaseLock "zone1" "bob" = (false, lockedResolver)) :=
  ⟨⟨rfl, c9_lock_acquire_release_semantics.1 lockedResolver "zone1" "alice" rfl⟩,
   ⟨rfl, by decide,
    c9_lock_acquire_release_semantics.2.1 lockedResolver "zone1" "bob" "alice" rfl (by decide)⟩,
   ⟨rfl, c9_lock_acquire_release_semantics.2.2.1 lockedResolver "z9" "bob" rfl⟩,
   ⟨rfl, c9_lock_acquire_release_semantics.2.2.2.1 lockedResolver "zone1" "alice" rfl⟩,
   ⟨by decide, c9_lock_acquire_release_semantics.2.2.2.2 lockedResolver "zone1" "bob" (by decide)⟩⟩

/-- C4: a drained batch decomposes into a critical segment, then a high,
then a normal, then a low segment; each segment is taken FIFO (a prefix
of the non-expired part of its deque); no message in the batch is
expired; every message skipped as expired is marked `expired` and counted;
and the §8 example — enqueue `[low, critical, normal, high]` to one
target, drain once — returns `[critical, high, normal, low]`.  The
expired example shows an expired message being skipped, marked and
dropped from the pending table instead of delivered. -/
theorem c4_get_next_batch_priority_order :
    (∀ (st : MessageQueue) (now : Nat),
      (∃ tc th tn tl,
        (st.getNextBatch now).batch = tc ++ th ++ tn ++ tl ∧
        tc <+: (st.queues .critical).filter (fun m => !(m.isExpiredAt now)) ∧
        th <+: (st.queues .high).filter (fun m => !(m.isExpiredAt now)) ∧
        tn <+: (st.queues .normal).filter (fun m => !(m.isExpiredAt now)) ∧
        tl <+: (st.queues .low).filter (fun m => !(m.isExpiredAt now))) ∧
      (∀ m ∈ (st.getNextBatch now).batch, m.isExpiredAt now = false) ∧
      (∀ m ∈ (st.getNextBatch now).expired, m.status = .expired ∧ m.isExpiredAt now = true) ∧
      (st.getNextBatch now).queue.messagesExpired =
        st.messagesExpired + ((st.getNextBatch now).expired).length) ∧
    ((priorityExampleQueue.getNextBatch 100).batch.map QueuedMessage.event =
      ["critical message", "high message", "normal message", "low message"]) ∧
    ((expiredQueue.getNextBatch 100).batch = [] ∧
      (expiredQueue.getNextBatch 100).expired.map QueuedMessage.status = [.expired] ∧
      lookupA "x1" (expiredQueue.getNextBatch 100).queue.pendingMessages = none) :=
  ⟨fun st now => getNextBatch_spec st now, by rfl, by refine ⟨rfl, rfl, rfl⟩⟩

/-- C5: `mark_failed` increments the retry count; below `max_retries` it
schedules a retry after `min(2^retry_count, 60)` seconds at the demoted
priority (critical retries at normal, everything else at low) and fires
no callback; otherwise the message becomes permanently failed, moves to
the failed table, and the callback fires once with success = false.  On a
message that always fails: the number of attempts is at most
`(max_retries - retry_count) + 1`, retry delays are non-decreasing, the
callback fires exactly once, and the default run (`retry_count = 0`,
`max_retries = 3`) makes exactly 3 ≤ 3 + 1 attempts with delays `[2, 4]`. -/
theorem c5_mark_failed_retry_policy :
    (∀ (st : MessageQueue) (now : Nat) (mid : String) (m : QueuedMessage),
      lookupA mid st.pendingMessages = some m → m.retryCount + 1 < m.maxRetries →
      st.markFailed now mid =
        ({ st with pendingMessages := setA mid { m with retryCount := m.retryCount + 1, lastAttempt := some now } st.pendingMessages },
         [],
         some ({ m with retryCount := m.retryCount + 1, lastAttempt := some now },
               min (2 ^ (m.retryCount + 1)) 60,
               if m.priority ≠ .critical then .low else .normal))) ∧
    (∀ (st : MessageQueue) (now : Nat) (mid : String) (m : QueuedMessage),
      lookupA mid st.pendingMessages = some m → ¬ m.retryCount + 1 < m.maxRetries →
      st.markFailed now mid =
        ({ st with pendingMessages := removeA mid st.pendingMessages,
                   failedMessages := setA mid { m with retryCount := m.retryCount + 1, lastAttempt := some now, status := .failed } st.failedMessages,
                   messagesFailed := st.messagesFailed + 1 },
         (if m.hasCallback then [(mid, false)] else []),
         none)) ∧
    (∀ (now : Nat) (mid : String) (fuel : Nat) (st : MessageQueue) (m : QueuedMessage),
      lookupA mid st.pendingMessages = some m →
      (MessageQueue.alwaysFailRun now mid fuel st).1 ≤ (m.maxRetries - m.retryCount) + 1) ∧
    (∀ (now : Nat) (mid : String) (fuel : Nat) (st : MessageQueue) (m : QueuedMessage),
      lookupA mid st.pendingMessages = some m →
      List.Chain' (· ≤ ·) (MessageQueue.alwaysFailRun now mid fuel st).2.1) ∧
    (∀ (now : Nat) (mid : String) (fuel : Nat) (st : MessageQueue) (m : QueuedMessage),
      lookupA mid st.pendingMessages = some m → m.hasCallback = true →
      m.maxRetries - m.retryCount ≤ fuel → 1 ≤ fuel →
      (MessageQueue.alwaysFailRun now mid fuel st).2.2.1 = [(mid, false)]) ∧
    ((MessageQueue.alwaysFailRun 50 "m1" 4 exSt).1 = 3 ∧
      3 ≤ exMsg.maxRetries + 1 ∧
      (MessageQueue.alwaysFailRun 50 "m1" 4 exSt).2.1 = [2, 4] ∧
      (MessageQueue.alwaysFailRun 50 "m1" 4 exSt).2.2.1 = [("m1", false)] ∧
      lookupA "m1" (MessageQueue.alwaysFailRun 50 "m1" 4 exSt).2.2.2.failedMessages ≠ none ∧
      lookupA "m1" (MessageQueue.alwaysFailRun 50 "m1" 4 exSt).2.2.2.pendingMessages = none) :=
  ⟨markFailed_retry, markFailed_permanent,
   fun now mid fuel st m h => alwaysFailRun_attempts_le now mid fuel st m h,
   fun now mid fuel st m h => (alwaysFailRun_delays now mid fuel st m h).1,
   fun now mid fuel st m h => alwaysFailRun_callback_once now mid fuel st m h,
   by refine ⟨rfl, by decide, rfl, rfl, by decide, rfl⟩⟩

/-- Witness for the retry policy: the callback-carrying critical message
`exMsg` (retry count 0, max 3) in `exSt`, its exhausted variant in
`exStTwoRetries`, and the always-failing run with fuel 4. -/
theorem c5_retry_policy_witness :
    (lookupA "m1" exSt.pendingMessages = some exMsg ∧
      exMsg.retryCount + 1 < exMsg.maxRetries ∧
      exSt.markFailed 50 "m1" =
        ({ exSt with
           pendingMessages := setA "m1" { exMsg with retryCount := exMsg.retryCount + 1, lastAttempt := some 50 } exSt.pendingMessages },
         [],
         some ({ exMsg with retryCount := exMsg.retryCount + 1, lastAttempt := some 50 },
               min (2 ^ (exMsg.retryCount + 1)) 60,
               if exMsg.priority ≠ .critical then .low else .normal))) ∧
    (lookupA "m1" exStTwoRetries.pendingMessages = some exMsgTwoRetries ∧
      ¬ exMsgTwoRetries.retryCount + 1 < exMsgTwoRetries.maxRetries ∧
      exStTwoRetries.markFailed 50 "m1" =
        ({ exStTwoRetries with
           pendingMessages := removeA "m1" exStTwoRetries.pendingMessages,
           failedMessages := setA "m1" { exMsgTwoRetries with retryCount := exMsgTwoRetries.retryCount + 1, lastAttempt := some 50, status := .failed } exStTwoRetries.failedMessages,
           messagesFailed := exStTwoRetries.messagesFailed + 1 },
         (if exMsgTwoRetries.hasCallback then [("m1", false)] else []),
         none)) ∧
    (lookupA "m1" exSt.pendingMessages = some exMsg ∧
      (MessageQueue.alwaysFailRun 50 "m1" 4 exSt).1 ≤ (exMsg.maxRetries - exMsg.retryCount) + 1) ∧
    (List.Chain' (· ≤ ·) (MessageQueue.alwaysFailRun 50 "m1" 4 exSt).2.1) ∧
    (exMsg.hasCallback = true ∧ exMsg.maxRetries - exMsg.retryCount ≤ 4 ∧ (1:Nat) ≤ 4 ∧
      (MessageQueue.alwaysFailRun 50 "m1" 4 exSt).2.2.1 = [("m1", false)]) :=
  ⟨⟨rfl, by decide, c5_mark_failed_retry_policy.1 exSt 50 "m1" exMsg rfl (by decide)⟩,
   ⟨rfl, by decide, c5_mark_failed_retry_policy.2.1 exStTwoRetries 50 "m1" exMsgTwoRetries rfl (by decide)⟩,
   ⟨rfl, c5_mark_failed_retry_policy.2.2.1 50 "m1" 4 exSt exMsg rfl⟩,
   c5_mark_failed_retry_policy.2.2.2.1 50 "m1" 4 exSt exMsg rfl,
   ⟨rfl, by decide, by decide,
    c5_mark_failed_retry_policy.2.2.2.2.1 50 "m1" 4 exSt exMsg rfl rfl (by decide) (by decide)⟩⟩

/-- C6: starting from any well-formed manager state, for any sequence of
`join_room`/`leave_room` calls by live connections the final membership
of every room equals the net effect of the sequence; the room-key set is
exactly the set of rooms with members, so `get_room_members` of a listed
room is never empty and no empty room is counted; and both calls are
idempotent. -/
theorem c6_room_membership_net_effect :
    (∀ (st0 : ConnectionManager) (ops : List RoomOp),
      (∀ r, r ∈ st0.roomKeys ↔ st0.rooms r ≠ ∅) →
      (∀ op ∈ ops, op.clientId ∈ st0.activeConnections) →
      (∀ r, (st0.applyRoomOps ops).rooms r = netMembers (st0.rooms r) ops r) ∧
      (∀ r, r ∈ (st0.applyRoomOps ops).roomKeys ↔ (st0.applyRoomOps ops).rooms r ≠ ∅) ∧
      (∀ r, r ∈ (st0.applyRoomOps ops).roomKeys →
        (st0.applyRoomOps ops).getRoomMembers r ≠ ∅)) ∧
    (∀ (st : ConnectionManager) (c r : String),
      (st.joinRoom c r).joinRoom c r = st.joinRoom c r) ∧
    (∀ (st : ConnectionManager) (c r : String),
      (st.leaveRoom c r).leaveRoom c r = st.leaveRoom c r) := by
  refine ⟨?_, joinRoom_idem, leaveRoom_idem⟩
  intro st0 ops hInv hLive
  obtain ⟨hR, hI⟩ := applyRoomOps_spec ops st0 hInv hLive
  refine ⟨hR, hI, ?_⟩
  intro r hr
  unfold ConnectionManager.getRoomMembers
  rw [if_pos hr]
  exact (hI r).mp hr

/-- Witness for the net-effect theorem: the live client `"c1"` joins
`roomA` twice, joins `roomB`, then leaves `roomA` — membership is the net
effect and emptied `roomA` is gone from the key set. -/
theorem c6_room_membership_witness :
    (∀ r, r ∈ exMgr.roomKeys ↔ exMgr.rooms r ≠ ∅) ∧
    (∀ op ∈ opsEx, op.clientId ∈ exMgr.activeConnections) ∧
    ((∀ r, (exMgr.applyRoomOps opsEx).rooms r = netMembers (exMgr.rooms r) opsEx r) ∧
      (∀ r, r ∈ (exMgr.applyRoomOps opsEx).roomKeys ↔ (exMgr.applyRoomOps opsEx).rooms r ≠ ∅) ∧
      (∀ r, r ∈ (exMgr.applyRoomOps opsEx).roomKeys →
        (exMgr.applyRoomOps opsEx).getRoomMembers r ≠ ∅)) ∧
    ((exMgr.applyRoomOps opsEx).rooms "roomA" = ∅ ∧
      (exMgr.applyRoomOps opsEx).rooms "roomB" = {"c1"} ∧
      "roomA" ∉ (exMgr.applyRoomOps opsEx).roomKeys ∧
      "roomB" ∈ (exMgr.applyRoomOps opsEx).roomKeys) := by
  have h1 : ∀ r, r ∈ exMgr.roomKeys ↔ exMgr.rooms r ≠ ∅ := by
    intro r
    simp [exMgr]
  have h2 : ∀ op ∈ opsEx, op.clientId ∈ exMgr.activeConnections := by decide
  refine ⟨h1, h2, c6_room_membership_net_effect.1 exMgr opsEx h1 h2, ?_, ?_, ?_, ?_⟩
  · decide
  · decide
  · decide
  · decide

/-- C8: when the queues are at capacity during `enqueue`, the oldest LOW
message is evicted (queues and pending table updated accordingly); when
no LOW message exists the oldest NORMAL message is evicted; eviction
never touches the HIGH or CRITICAL deques in any state; and the
rate-limit-passing `enqueue` at capacity appends the new message to the
evicted state's deque of its priority, leaving the other deques as the
eviction left them.  The closed example evicts `old_low` when a critical
message arrives at a full queue. -/
theorem c8_enqueue_capacity_eviction :
    (∀ (st : MessageQueue) (m : QueuedMessage) (rest : List QueuedMessage),
      st.queues .low = m :: rest →
      st.evictLowPriorityMessages.queues .low = rest ∧
      st.evictLowPriorityMessages.queues .normal = st.queues .normal ∧
      st.evictLowPriorityMessages.queues .high = st.queues .high ∧
      st.evictLowPriorityMessages.queues .critical = st.queues .critical ∧
      st.evictLowPriorityMessages.pendingMessages = removeA m.id st.pendingMessages) ∧
    (∀ (st : MessageQueue) (m : QueuedMessage) (rest : List QueuedMessage),
      st.queues .low = [] → st.queues .normal = m :: rest →
      st.evictLowPriorityMessages.queues .normal = rest ∧
      st.evictLowPriorityMessages.queues .low = [] ∧
      st.evictLowPriorityMessages.queues .high = st.queues .high ∧
      st.evictLowPriorityMessages.queues .critical = st.queues .critical ∧
      st.evictLowPriorityMessages.pendingMessages = removeA m.id st.pendingMessages) ∧
    (∀ (st : MessageQueue),
      st.evictLowPriorityMessages.queues .high = st.queues .high ∧
      st.evictLowPriorityMessages.queues .critical = st.queues .critical) ∧
    (∀ (st : MessageQueue) (now : Nat) (ev tt : String) (ti : Option String)
        (pr : MessagePriority) (ttl : Option Nat) (cb : Bool),
      (st.checkRateLimit now (ti.getD "global")).1 = true →
      st.maxQueueSize ≤ st.totalQueueSize →
      ∃ stq,
        st.enqueue now ev tt ti pr ttl cb =
          .ok ((st.checkRateLimit now (ti.getD "global")).2.evictLowPriorityMessages.newMessageId now, stq) ∧
        (∀ p, stq.queues p =
          (st.checkRateLimit now (ti.getD "global")).2.evictLowPriorityMessages.queues p ++
            (if p = pr then
              [(st.checkRateLimit now (ti.getD "global")).2.evictLowPriorityMessages.newQueuedMessage
                now ev tt ti pr ttl cb]
             else [])) ∧
        ((st.checkRateLimit now (ti.getD "global")).2.evictLowPriorityMessages.newQueuedMessage
            now ev tt ti pr ttl cb).priority = pr) ∧
    (evictedResult.queues .low = [] ∧
      evictedResult.queues .normal = [oldNormalMsg] ∧
      (evictedResult.queues .critical).map QueuedMessage.event = ["urgent"] ∧
      lookupA "old_low" evictedResult.pendingMessages = none ∧
      lookupA "old_normal" evictedResult.pendingMessages = some oldNormalMsg) := by
  refine ⟨evict_low_nonempty, evict_low_empty, evict_never_touches_high_critical,
    enqueue_at_capacity, rfl, rfl, rfl, rfl, rfl⟩

/-- Witness for the eviction theorem at the concrete full queues. -/
theorem c8_enqueue_capacity_eviction_witness :
    (fullQueue.queues .low = oldLowMsg :: [] ∧
      fullQueue.evictLowPriorityMessages.queues .low = [] ∧
      fullQueue.evictLowPriorityMessages.pendingMessages = removeA "old_low" fullQueue.pendingMessages) ∧
    (normalOnlyQueue.queues .low = [] ∧ normalOnlyQueue.queues .normal = oldNormalMsg :: [] ∧
      normalOnlyQueue.evictLowPriorityMessages.queues .normal = []) ∧
    (fullQueue.evictLowPriorityMessages.queues .high = fullQueue.queues .high) ∧
    ((fullQueue.checkRateLimit 100 "u1").1 = true ∧
      fullQueue.maxQueueSize ≤ fullQueue.totalQueueSize ∧
      ∃ stq,
        fullQueue.enqueue 100 "urgent" "user" (some "u1") .critical none false =
          .ok ((fullQueue.checkRateLimit 100 "u1").2.evictLowPriorityMessages.newMessageId 100, stq) ∧
        (∀ p, stq.queues p =
          (fullQueue.checkRateLimit 100 "u1").2.evictLowPriorityMessages.queues p ++
            (if p = MessagePriority.critical then
              [(fullQueue.checkRateLimit 100 "u1").2.evictLowPriorityMessages.newQueuedMessage
                100 "urgent" "user" (some "u1") .critical none false]
             else [])) ∧
        ((fullQueue.checkRateLimit 100 "u1").2.evictLowPriorityMessages.newQueuedMessage
            100 "urgent" "user" (some "u1") .critical none false).priority = .critical) := by
  have holdlow : fullQueue.queues .low = oldLowMsg :: [] := rfl
  have hnorm : normalOnlyQueue.queues .normal = oldNormalMsg :: [] := rfl
  refine ⟨⟨holdlow, (c8_enqueue_capacity_eviction.1 fullQueue oldLowMsg [] holdlow).1,
      (c8_enqueue_capacity_eviction.1 fullQueue oldLowMsg [] holdlow).2.2.2.2⟩,
    ⟨rfl, hnorm, (c8_enqueue_capacity_eviction.2.1 normalOnlyQueue oldNormalMsg [] rfl hnorm).1⟩,
    (c8_enqueue_capacity_eviction.2.2.1 fullQueue).1,
    rfl, by decide,
    c8_enqueue_capacity_eviction.2.2.2.1 fullQueue 100 "urgent" "user" (some "u1")
      .critical none false rfl (by decide)⟩

/-- C10: for a tracked job in a stage with an interpolation weight
(`zone_detection`, `text_extraction`, `post_processing`) and positive
`total_pages`, `update_page_progress` sets the percentage to
`min(stage_base + (current_page / total_pages) × stage_weight, 95)` —
the weight expressed in percentage points, `100 × w` — so it never
exceeds 95; the stage is unchanged and the page is recorded.  For the
ten-page job in `zone_detection`, `update_page_progress(5)` yields
exactly 40, strictly between 25 and 45. -/
theorem c10_update_page_progress_interpolation :
    (∀ (em : ProcessingProgressEmitter) (jobId : String) (page zones now : Nat)
        (job : JobState) (w : ℚ),
      lookupA jobId em.activeJobs = some job →
      stageWeight job.stage = some w →
      0 < job.totalPages →
      ∃ job', lookupA jobId ((em.updatePageProgress jobId page zones now).1.activeJobs) = some job' ∧
        job'.progressPercentage =
          min (stageBaseProgress job.stage + ((page : ℚ) / (job.totalPages : ℚ)) * (100 * w)) 95 ∧
        job'.progressPercentage ≤ 95 ∧
        job'.stage = job.stage ∧ job'.currentPage = page) ∧
    (∃ job', lookupA "J1" ((exEm.updatePageProgress "J1" 5 0 1).1.activeJobs) = some job' ∧
      job'.progressPercentage = 40 ∧
      25 < job'.progressPercentage ∧ job'.progressPercentage < 45) := by
  constructor
  · intro em jobId page zones now job w hjob hw hp
    unfold ProcessingProgressEmitter.updatePageProgress
    rw [hjob]
    simp only [hp, if_pos, hw]
    refine ⟨_, lookupA_setA _ _ _, ?_, ?_, rfl, rfl⟩
    · show min (stageBaseProgress job.stage + ((page : ℚ) / (job.totalPages : ℚ)) * 100 * w) 95 = _
      ring_nf
    · exact min_le_right _ _
  · refine ⟨_, rfl, ?_, ?_, ?_⟩
    · show min (stageBaseProgress exJob.stage + ((5 : ℚ) / ((10 : Nat) : ℚ)) * 100 * (3 / 10)) 95 = 40
      norm_num [stageBaseProgress, exJob]
    · show (25 : ℚ) < min (stageBaseProgress exJob.stage + ((5 : ℚ) / ((10 : Nat) : ℚ)) * 100 * (3 / 10)) 95
      norm_num [stageBaseProgress, exJob]
    · show min (stageBaseProgress exJob.stage + ((5 : ℚ) / ((10 : Nat) : ℚ)) * 100 * (3 / 10)) 95 < 45
      norm_num [stageBaseProgress, exJob]

/-- Witness for the interpolation theorem at the ten-page job. -/
theorem c10_update_page_progress_witness :
    lookupA "J1" exEm.activeJobs = some exJob ∧
    stageWeight exJob.stage = some (3 / 10) ∧
    0 < exJob.totalPages ∧
    (∃ job', lookupA "J1" ((exEm.updatePageProgress "J1" 5 0 1).1.activeJobs) = some job' ∧
      job'.progressPercentage =
        min (stageBaseProgress exJob.stage + ((5 : ℚ) / (exJob.totalPages : ℚ)) * (100 * (3 / 10))) 95 ∧
      job'.progressPercentage ≤ 95 ∧
      job'.stage = exJob.stage ∧ job'.currentPage = 5) :=
  ⟨rfl, rfl, by decide,
   c10_update_page_progress_interpolation.1 exEm "J1" 5 0 1 exJob (3 / 10) rfl rfl (by decide)⟩

end ATC
